import Mathlib

/-!
# Fruit classifier front end: plot widget and training playback

A shallow embedding of `qt_frontend/src/plotwidget.cpp` and
`qt_frontend/src/mainwindow.cpp`.

Conventions of the embedding:

* a C++ `double` that holds a sample or a bound of the display range is a
  rational number (`ℚ`); the literals `0.1` and `0.05` are `1/10` and `1/20`,
  and arithmetic is exact.  `PlotWidget.setDataWith` is `setData` with the
  rounding of every operation left open, for what must hold under rounding;
* where the code can produce or receive a value that is not finite, the
  `double` is an `ExtDouble`: a rational, an infinity or NaN.  This is so for
  the quotient by `m_maxY - m_minY` in the ordinate of the curve, whose clamp
  absorbs it, and for the numbers read from the feature fields.  In the
  abscissa a division by zero is `none`: nothing follows it that could make
  the result finite again;
* `QVector<double>` is `List ℚ`;
* the `int` product `i * width()` is computed in 32-bit two's complement
  (`wrapInt`);
* calls that cross the boundary to the native engine, and the message boxes,
  are recorded in an effect trace returned next to the new state.
-/

namespace FruitClassifier

/-! ## plotwidget.cpp -/

/-- Qt's `qMax(a, b)`, which is `(a < b) ? b : a`. -/
def qMax (a b : ℚ) : ℚ := if a < b then b else a

/-- Qt's `qMin(a, b)`, which is `(a < b) ? a : b`. -/
def qMin (a b : ℚ) : ℚ := if a < b then a else b

/-- The value found by `std::minmax_element(...).first`: the smallest element,
the running candidate `m` being replaced only by a strictly smaller one. -/
def minElement : ℚ → List ℚ → ℚ
  | m, [] => m
  | m, x :: xs => minElement (if x < m then x else m) xs

/-- The value found by `std::minmax_element(...).second`: the largest element,
the running candidate `m` being kept only against a strictly smaller one. -/
def maxElement : ℚ → List ℚ → ℚ
  | m, [] => m
  | m, x :: xs => maxElement (if x < m then m else x) xs

/-- The data members of `PlotWidget` that the drawing of the curve reads
(`plotwidget.h`); the colours are left out. -/
structure PlotWidget where
  m_data : List ℚ
  m_minY : ℚ
  m_maxY : ℚ
  m_title : String
deriving DecidableEq

namespace PlotWidget

/-- The constructor `PlotWidget::PlotWidget`: range `(0.0, 1.0)`, no data. -/
def new : PlotWidget :=
  { m_data := [], m_minY := 0, m_maxY := 1, m_title := "" }

/-- The method `PlotWidget::setYRange`. -/
def setYRange (p : PlotWidget) (minY maxY : ℚ) : PlotWidget :=
  { p with m_minY := minY, m_maxY := maxY }

/-- The method `PlotWidget::setTitle`. -/
def setTitle (p : PlotWidget) (title : String) : PlotWidget :=
  { p with m_title := title }

/-- The method `PlotWidget::setData`: stores the samples and, when there is at
least one, recomputes the display range from them. -/
def setData (p : PlotWidget) (data : List ℚ) : PlotWidget :=
  match data with
  | [] => { p with m_data := [] }
  | x :: xs =>
    let rawMin := minElement x xs
    let rawMax := maxElement x xs
    let range := rawMax - rawMin
    if range < 1 / 10 then
      let minY := qMax 0 (rawMin - 1 / 20)
      { p with m_data := x :: xs, m_minY := minY, m_maxY := minY + 1 / 10 }
    else
      { p with m_data := x :: xs,
               m_minY := qMax 0 (rawMin - 1 / 10 * range),
               m_maxY := rawMax + 1 / 10 * range }

/-- The method `PlotWidget::setData` with the rounding of `double` arithmetic
made explicit: `fl` rounds a rational to the `double` that stands for it, and
is applied to the two literals and to the result of every arithmetic
operation.  With `fl` the identity this is `setData`. -/
def setDataWith (fl : ℚ → ℚ) (p : PlotWidget) (data : List ℚ) : PlotWidget :=
  match data with
  | [] => { p with m_data := [] }
  | x :: xs =>
    let rawMin := minElement x xs
    let rawMax := maxElement x xs
    let range := fl (rawMax - rawMin)
    if range < fl (1 / 10) then
      let minY := qMax 0 (fl (rawMin - fl (1 / 20)))
      { p with m_data := x :: xs, m_minY := minY, m_maxY := fl (minY + fl (1 / 10)) }
    else
      { p with m_data := x :: xs,
               m_minY := qMax 0 (fl (rawMin - fl (fl (1 / 10) * range))),
               m_maxY := fl (rawMax + fl (fl (1 / 10) * range)) }

end PlotWidget

/-- A `double` that need not be finite: a rational value, one of the two
infinities, or NaN. -/
inductive ExtDouble where
  | finite (value : ℚ)
  | posInf
  | negInf
  | nan
deriving DecidableEq

namespace ExtDouble

/-- The comparison `a < b` of two doubles; false as soon as one is NaN. -/
def lt : ExtDouble → ExtDouble → Bool
  | finite a, finite b => decide (a < b)
  | finite _, posInf => true
  | negInf, finite _ => true
  | negInf, posInf => true
  | _, _ => false

/-- The comparison `a <= b` of two doubles; false as soon as one is NaN. -/
def le : ExtDouble → ExtDouble → Bool
  | finite a, finite b => decide (a ≤ b)
  | nan, _ => false
  | _, nan => false
  | negInf, _ => true
  | _, posInf => true
  | _, _ => false

/-- The quotient `a / b` of two finite doubles.  A zero divisor is taken as
`+0`, which is what `m_maxY - m_minY` is when the two bounds are equal: the
quotient is then an infinity with the sign of `a`, or NaN when `a` is zero. -/
def div (a b : ℚ) : ExtDouble :=
  if b = 0 then
    if 0 < a then posInf else if a < 0 then negInf else nan
  else finite (a / b)

/-- The product `a * b` of two doubles. -/
def mul : ExtDouble → ExtDouble → ExtDouble
  | finite a, finite b => finite (a * b)
  | nan, _ => nan
  | _, nan => nan
  | posInf, finite b => if 0 < b then posInf else if b < 0 then negInf else nan
  | negInf, finite b => if 0 < b then negInf else if b < 0 then posInf else nan
  | finite a, posInf => if 0 < a then posInf else if a < 0 then negInf else nan
  | finite a, negInf => if 0 < a then negInf else if a < 0 then posInf else nan
  | posInf, posInf => posInf
  | negInf, negInf => posInf
  | posInf, negInf => negInf
  | negInf, posInf => negInf

/-- The difference `a - b` of two doubles. -/
def sub : ExtDouble → ExtDouble → ExtDouble
  | finite a, finite b => finite (a - b)
  | nan, _ => nan
  | _, nan => nan
  | posInf, posInf => nan
  | negInf, negInf => nan
  | posInf, _ => posInf
  | negInf, _ => negInf
  | finite _, posInf => negInf
  | finite _, negInf => posInf

/-- Qt's `qMax(a, b)`, which is `(a < b) ? b : a`, on doubles that need not be
finite. -/
def qMax (a b : ExtDouble) : ExtDouble := if lt a b then b else a

/-- Qt's `qMin(a, b)`, which is `(a < b) ? a : b`, on doubles that need not be
finite. -/
def qMin (a b : ExtDouble) : ExtDouble := if lt a b then a else b

end ExtDouble

/-- The value of an `int` expression whose mathematical result is `z`:
the representative of `z` modulo `2^32` in `[-2^31, 2^31)`. -/
def wrapInt (z : Int) : Int := (z + 2147483648) % 4294967296 - 2147483648

/-- A floating-point division whose result is used as it is: no finite result
when the divisor is zero. -/
def fdiv (a b : ℚ) : Option ℚ := if b = 0 then none else some (a / b)

/-- The abscissa in the curve loop of `paintEvent`:
`double x = i * width() / double(m_data.size() - 1);`. -/
def curveX (i width size : Nat) : Option ℚ :=
  fdiv ((wrapInt ((i : Int) * (width : Int)) : Int) : ℚ) ((((size : Int) - 1 : Int)) : ℚ)

/-- The ordinate in the curve loop of `paintEvent`:
`height() - ((m_data[i] - m_minY) / (m_maxY - m_minY)) * height()`,
then `qMax(0.0, qMin(double(height()), y))`.  The quotient may be an infinity
or NaN (when `m_maxY == m_minY`); the two comparisons of the clamp then decide
what is left. -/
def curveY (value minY maxY : ℚ) (height : Nat) : ExtDouble :=
  let y := ExtDouble.sub (ExtDouble.finite (height : ℚ))
    (ExtDouble.mul (ExtDouble.div (value - minY) (maxY - minY))
      (ExtDouble.finite (height : ℚ)))
  ExtDouble.qMax (ExtDouble.finite 0) (ExtDouble.qMin (ExtDouble.finite (height : ℚ)) y)

/-- One iteration of the curve loop: the point handed to `moveTo`/`lineTo`
for sample `i`, when both coordinates are finite. -/
def curvePoint (p : PlotWidget) (width height i : Nat) : Option (ℚ × ℚ) :=
  match curveX i width p.m_data.length,
        curveY (p.m_data.getD i 0) p.m_minY p.m_maxY height with
  | some x, ExtDouble.finite y => some (x, y)
  | _, _ => none

/-- The curve loop of `PlotWidget::paintEvent`
(`for (int i = 0; i < m_data.size(); ++i)`): the points of the path in order. -/
def paintCurve (p : PlotWidget) (width height : Nat) : List (Option (ℚ × ℚ)) :=
  (List.range p.m_data.length).map (curvePoint p width height)

/-! ## mainwindow.cpp -/

/-- The two buffers that `train_network` hands over through its
out-parameters `accuracies` and `losses`. -/
inductive Buffer where
  | rustAccuracies
  | rustLosses
deriving DecidableEq

/-- What `MainWindow` does to the outside: the calls across the boundary to
the native engine, the reads of memory the engine owns, and the error boxes. -/
inductive Effect where
  | train_network (dataset_path : String) (epochs : Nat)
  | readArray (buffer : Buffer) (index : Nat)
  | free_array (buffer : Buffer)
  | predict (weight size width height : ExtDouble)
  | readString
  | free_string
  | critical (message : String)
deriving DecidableEq

/-- What one call of `train_network` gives back: the returned `bool` and the
values left in the out-parameters (the contents of the two buffers by index,
the final accuracy and the element count). -/
structure TrainResult where
  success : Bool
  rustAccuracies : Nat → ℚ
  rustLosses : Nat → ℚ
  rustFinalAccuracy : ℚ
  dataLength : Nat

/-- What `startTraining` reads from its surroundings: the number in the epoch
field (`epochInput->text().toInt()`), whether the dataset file is there
(`QFile::exists`), and the native `train_network`. -/
structure StartEnv where
  epochInput : Int
  fileExists : String → Bool
  train_network : String → Nat → TrainResult

/-- The text of `accuracyLabel`: the initial text, `"Current Accuracy: p%"`
or `"Final Accuracy: p%"`, with `p` the number that is formatted. -/
inductive AccuracyText where
  | initial
  | current (percent : ℚ)
  | final (percent : ℚ)
deriving DecidableEq

/-- The data members of `MainWindow` (`src/mainwindow.h`) and the widget
contents its slots write: the two plots, the texts of the four feature fields,
the prediction label with its style sheet, the accuracy label, the two numbers
of the epoch label, the enabled flag of the train button, the value last
handed to `progressBar->setValue`, and whether `trainingTimer` is active. -/
structure MainWindow where
  accuracyPlot : PlotWidget
  lossPlot : PlotWidget
  featureInputs : List String
  predictionLabel : String
  predictionStyle : String
  accuracyLabel : AccuracyText
  epochLabel : Int × Int
  trainButtonEnabled : Bool
  progressValue : Int
  timerActive : Bool
  currentEpoch : Int
  totalEpochs : Int
  accuracies : List ℚ
  losses : List ℚ
  finalAccuracy : ℚ
  datasetPath : String
deriving DecidableEq

/-- The copy loop of `startTraining`
(`for (size_t i = 0; i < dataLength; ++i)`), from index `i` with `n`
iterations left: the values stored in `accuracies` and `losses`, and the reads
of the two foreign buffers in the order they happen. -/
def copyLoop (r : TrainResult) : Nat → Nat → List ℚ × List ℚ × List Effect
  | _, 0 => ([], [], [])
  | i, n + 1 =>
    let rest := copyLoop r (i + 1) n
    (r.rustAccuracies i :: rest.1, r.rustLosses i :: rest.2.1,
      Effect.readArray Buffer.rustAccuracies i ::
        Effect.readArray Buffer.rustLosses i :: rest.2.2)

/-- The conversion `static_cast<size_t>(totalEpochs)` to a 64-bit `size_t`. -/
def toSizeT (z : Int) : Nat := (z % 18446744073709551616).toNat

/-- One validation step of `predictFruit`: `text.toDouble(&ok)` followed by
the test `!ok || value <= 0`; the accepted value, if any.  `toDouble` gives
`none` when `ok` comes back false, and otherwise the double that was read,
which may be an infinity or NaN. -/
def checkedFeature (toDouble : String → Option ExtDouble) (text : String) :
    Option ExtDouble :=
  match toDouble text with
  | none => none
  | some v => if ExtDouble.le v (ExtDouble.finite 0) then none else some v

namespace MainWindow

/-- The constructor `MainWindow::MainWindow` followed by `setupUI`. -/
def new : MainWindow :=
  { accuracyPlot := (PlotWidget.new.setTitle "Training Accuracy").setYRange 0 1
    lossPlot := (PlotWidget.new.setTitle "Training Loss").setYRange 0 2
    featureInputs := ["", "", "", ""]
    predictionLabel := "Prediction: -"
    predictionStyle := "font-size: 16px; font-weight: bold; padding: 10px;"
    accuracyLabel := AccuracyText.initial
    epochLabel := (0, 5000)
    trainButtonEnabled := true
    progressValue := 0
    timerActive := false
    currentEpoch := 0
    totalEpochs := 5000
    accuracies := []
    losses := []
    finalAccuracy := 0
    datasetPath := "" }

/-- The slot `MainWindow::selectDataset`, `path` being what the file dialog
returned (empty when it was cancelled). -/
def selectDataset (s : MainWindow) (path : String) : MainWindow :=
  if path.isEmpty then s else { s with datasetPath := path }

/-- The slot `MainWindow::startTraining`: the new state and the effects in
the order they happen. -/
def startTraining (s : MainWindow) (env : StartEnv) : MainWindow × List Effect :=
  if s.datasetPath.isEmpty then
    (s, [Effect.critical "Please select a dataset file first"])
  else
    let s1 : MainWindow :=
      { s with trainButtonEnabled := false, currentEpoch := 0,
               accuracies := [], losses := [],
               totalEpochs := env.epochInput, epochLabel := (0, env.epochInput) }
    if !env.fileExists s.datasetPath then
      ({ s1 with trainButtonEnabled := true },
        [Effect.critical ("Dataset file not found at:\n" ++ s.datasetPath)])
    else
      let r := env.train_network s.datasetPath (toSizeT s1.totalEpochs)
      let call := Effect.train_network s.datasetPath (toSizeT s1.totalEpochs)
      if !r.success then
        ({ s1 with trainButtonEnabled := true },
          [call, Effect.critical "Training failed"])
      else
        let copied := copyLoop r 0 r.dataLength
        ({ s1 with accuracies := copied.1, losses := copied.2.1,
                   finalAccuracy := r.rustFinalAccuracy, timerActive := true },
          call :: copied.2.2 ++
            [Effect.free_array Buffer.rustAccuracies, Effect.free_array Buffer.rustLosses])

/-- The slot `MainWindow::updateTrainingProgress`, run on every timeout of
`trainingTimer`. -/
def updateTrainingProgress (s : MainWindow) : MainWindow :=
  if (s.accuracies.length : Int) ≤ s.currentEpoch then
    { s with timerActive := false, trainButtonEnabled := true,
             accuracyLabel := AccuracyText.final (s.finalAccuracy * 100) }
  else
    let currentAccuracy := s.accuracies.getD s.currentEpoch.toNat 0
    let partialAccuracies := s.accuracies.take (s.currentEpoch.toNat + 1)
    let partialLosses := s.losses.take (s.currentEpoch.toNat + 1)
    { s with progressValue := s.currentEpoch + 1,
             epochLabel := (s.currentEpoch + 1, s.totalEpochs),
             accuracyLabel := AccuracyText.current (currentAccuracy * 100),
             accuracyPlot := s.accuracyPlot.setData partialAccuracies,
             lossPlot := s.lossPlot.setData partialLosses,
             currentEpoch := s.currentEpoch + 1 }

/-- The rejection branch of `predictFruit`: the message on the label, the
error colour, no effect. -/
def rejectFeature (s : MainWindow) (message : String) : MainWindow × List Effect :=
  ({ s with predictionLabel := message, predictionStyle := "color: #d32f2f;" }, [])

/-- The slot `MainWindow::predictFruit`; `toDouble` is `QString::toDouble`
(`none` when `ok` comes back false) and `predict` the native call, giving the
text of the string it returns. -/
def predictFruit (s : MainWindow) (toDouble : String → Option ExtDouble)
    (predict : ExtDouble → ExtDouble → ExtDouble → ExtDouble → String) :
    MainWindow × List Effect :=
  match checkedFeature toDouble (s.featureInputs.getD 0 "") with
  | none => rejectFeature s "Invalid weight (must be > 0)"
  | some weight =>
  match checkedFeature toDouble (s.featureInputs.getD 1 "") with
  | none => rejectFeature s "Invalid size (must be > 0)"
  | some size =>
  match checkedFeature toDouble (s.featureInputs.getD 2 "") with
  | none => rejectFeature s "Invalid width (must be > 0)"
  | some width =>
  match checkedFeature toDouble (s.featureInputs.getD 3 "") with
  | none => rejectFeature s "Invalid height (must be > 0)"
  | some height =>
    let prediction := predict weight size width height
    let color := if prediction = "unknown" then "#ff9800" else "#388e3c"
    ({ s with predictionLabel := "Prediction: " ++ prediction,
              predictionStyle := "color: " ++ color ++ ";" },
      [Effect.predict weight size width height, Effect.readString, Effect.free_string])

end MainWindow

/-- What can happen to the window: the user picks a dataset, edits the four
feature fields, presses the train button or the predict button, or the timer
fires. -/
inductive Event where
  | selectDataset (path : String)
  | editFeatures (texts : List String)
  | startTraining (env : StartEnv)
  | predictFruit (toDouble : String → Option ExtDouble)
      (predict : ExtDouble → ExtDouble → ExtDouble → ExtDouble → String)
  | tick

/-- The state after one event. -/
def step (s : MainWindow) : Event → MainWindow
  | Event.selectDataset path => s.selectDataset path
  | Event.editFeatures texts => { s with featureInputs := texts }
  | Event.startTraining env => (s.startTraining env).1
  | Event.predictFruit toDouble predict => (s.predictFruit toDouble predict).1
  | Event.tick => s.updateTrainingProgress

/-- The state after a sequence of events, starting from a fresh window. -/
def run (events : List Event) : MainWindow := events.foldl step MainWindow.new

/-- The state after `n` timer ticks. -/
def ticks : Nat → MainWindow → MainWindow
  | 0, s => s
  | n + 1, s => ticks n s.updateTrainingProgress

/-! ## Sample engines used in the worked examples -/

/-- An engine run that succeeds with two epochs: accuracies `[0.5, 0.75]`,
losses `[0.9, 0.4]`, final accuracy `0.8`. -/
def twoEpochRun : TrainResult :=
  { success := true
    rustAccuracies := fun i => if i = 0 then 1 / 2 else 3 / 4
    rustLosses := fun i => if i = 0 then 9 / 10 else 2 / 5
    rustFinalAccuracy := 4 / 5
    dataLength := 2 }

/-- An engine run that succeeds with no epoch at all. -/
def emptyRun : TrainResult :=
  { success := true
    rustAccuracies := fun _ => 0
    rustLosses := fun _ => 0
    rustFinalAccuracy := 0
    dataLength := 0 }

/-- An engine run that fails: the out-parameters are left as the caller
initialised them. -/
def failedRun : TrainResult :=
  { success := false
    rustAccuracies := fun _ => 0
    rustLosses := fun _ => 0
    rustFinalAccuracy := 0
    dataLength := 0 }

/-- Surroundings in which the dataset file is there, the epoch field reads
`5000` and the engine answers `r`. -/
def envOf (r : TrainResult) : StartEnv :=
  { epochInput := 5000
    fileExists := fun _ => true
    train_network := fun _ _ => r }

/-- A reading of `QString::toDouble` on the few texts the examples use; the
text `nan` is read as NaN, with `ok` true. -/
def sampleToDouble (text : String) : Option ExtDouble :=
  if text = "-1" then some (ExtDouble.finite (-1))
  else if text = "150.0" then some (ExtDouble.finite 150)
  else if text = "7.5" then some (ExtDouble.finite (15 / 2))
  else if text = "6.0" then some (ExtDouble.finite 6)
  else if text = "nan" then some ExtDouble.nan
  else none

/-- An engine whose `predict` always answers `"apple"`. -/
def samplePredict (_weight _size _width _height : ExtDouble) : String := "apple"


/-! ## Facts about the helpers -/

theorem qMax_eq_max (a b : ℚ) : qMax a b = max a b := by
  unfold qMax
  split_ifs with h
  · exact (max_eq_right h.le).symm
  · exact (max_eq_left (not_lt.mp h)).symm

theorem qMin_eq_min (a b : ℚ) : qMin a b = min a b := by
  unfold qMin
  split_ifs with h
  · exact (min_eq_left h.le).symm
  · exact (min_eq_right (not_lt.mp h)).symm

theorem minElement_mem (xs : List ℚ) : ∀ m : ℚ, minElement m xs ∈ m :: xs := by
  induction xs with
  | nil => intro m; simp [minElement]
  | cons x xs ih =>
    intro m
    have h := ih (if x < m then x else m)
    simp only [minElement]
    split_ifs at h ⊢ with hx <;> simp only [List.mem_cons] at h ⊢ <;> tauto

theorem minElement_le (xs : List ℚ) :
    ∀ m : ℚ, ∀ v ∈ m :: xs, minElement m xs ≤ v := by
  induction xs with
  | nil => intro m v hv; simp [minElement] at hv ⊢; exact hv.ge
  | cons x xs ih =>
    intro m v hv
    have h := ih (if x < m then x else m)
    simp only [minElement]
    have hm : minElement (if x < m then x else m) xs ≤ (if x < m then x else m) :=
      h _ (List.mem_cons_self _ _)
    simp only [List.mem_cons] at hv
    rcases hv with rfl | rfl | hv
    · refine hm.trans ?_
      split_ifs with hx
      · exact hx.le
      · exact le_refl _
    · refine hm.trans ?_
      split_ifs with hx
      · exact le_refl _
      · exact not_lt.mp hx
    · exact h v (List.mem_cons_of_mem _ hv)

theorem maxElement_mem (xs : List ℚ) : ∀ m : ℚ, maxElement m xs ∈ m :: xs := by
  induction xs with
  | nil => intro m; simp [maxElement]
  | cons x xs ih =>
    intro m
    have h := ih (if x < m then m else x)
    simp only [maxElement]
    split_ifs at h ⊢ with hx <;> simp only [List.mem_cons] at h ⊢ <;> tauto

theorem le_maxElement (xs : List ℚ) :
    ∀ m : ℚ, ∀ v ∈ m :: xs, v ≤ maxElement m xs := by
  induction xs with
  | nil => intro m v hv; simp [maxElement] at hv ⊢; exact hv.le
  | cons x xs ih =>
    intro m v hv
    have h := ih (if x < m then m else x)
    simp only [maxElement]
    have hm : (if x < m then m else x) ≤ maxElement (if x < m then m else x) xs :=
      h _ (List.mem_cons_self _ _)
    simp only [List.mem_cons] at hv
    rcases hv with rfl | rfl | hv
    · refine le_trans ?_ hm
      split_ifs with hx
      · exact le_refl _
      · exact not_lt.mp hx
    · refine le_trans ?_ hm
      split_ifs with hx
      · exact hx.le
      · exact le_refl _
    · exact h v (List.mem_cons_of_mem _ hv)

theorem setData_m_data (p : PlotWidget) (data : List ℚ) :
    (p.setData data).m_data = data := by
  cases data with
  | nil => rfl
  | cons x xs =>
    simp only [PlotWidget.setData]
    split_ifs <;> rfl

theorem wrapInt_of_lt (z : Int) (h0 : 0 ≤ z) (h1 : z < 2147483648) : wrapInt z = z := by
  unfold wrapInt
  omega

/-! ## The auto-ranging rule of `setData` -/

/-- C1: for every non-empty sample sequence `setData` stores the samples and
sets `(m_minY, m_maxY)` by the auto-ranging rule, where `rawMin`/`rawMax` are
the minimum/maximum sample: when `rawMax - rawMin < 0.1` the lower bound is
`max(0, rawMin - 0.05)` and the upper bound is the lower bound plus `0.1`,
otherwise the bounds are `max(0, rawMin - 0.1*range)` and `rawMax + 0.1*range`.
On `[0.5, 0.5, 0.5]` this gives `minY = 0.45` with span `0.1`, and on
`[0.0, 1.0]` it gives `minY = 0.0`, `maxY = 1.1`. -/
theorem setData_autorange (p : PlotWidget) (data : List ℚ) (h : data ≠ []) :
    (∃ rawMin rawMax : ℚ,
      rawMin ∈ data ∧ rawMax ∈ data ∧ (∀ v ∈ data, rawMin ≤ v ∧ v ≤ rawMax) ∧
      (p.setData data).m_data = data ∧
      (rawMax - rawMin < 1 / 10 →
        (p.setData data).m_minY = max 0 (rawMin - 1 / 20) ∧
        (p.setData data).m_maxY = max 0 (rawMin - 1 / 20) + 1 / 10) ∧
      (¬ rawMax - rawMin < 1 / 10 →
        (p.setData data).m_minY = max 0 (rawMin - 1 / 10 * (rawMax - rawMin)) ∧
        (p.setData data).m_maxY = rawMax + 1 / 10 * (rawMax - rawMin))) ∧
    ((p.setData [1 / 2, 1 / 2, 1 / 2]).m_minY = 9 / 20 ∧
      (p.setData [1 / 2, 1 / 2, 1 / 2]).m_maxY
        - (p.setData [1 / 2, 1 / 2, 1 / 2]).m_minY = 1 / 10) ∧
    ((p.setData [0, 1]).m_minY = 0 ∧ (p.setData [0, 1]).m_maxY = 11 / 10) := by
  refine ⟨?_, ?_, ?_⟩
  · cases data with
    | nil => exact absurd rfl h
    | cons x xs =>
      refine ⟨minElement x xs, maxElement x xs, minElement_mem xs x, maxElement_mem xs x,
        fun v hv => ⟨minElement_le xs x v hv, le_maxElement xs x v hv⟩,
        setData_m_data p (x :: xs), ?_, ?_⟩
      · intro hlt
        simp only [PlotWidget.setData, if_pos hlt, qMax_eq_max, and_self]
      · intro hge
        simp only [PlotWidget.setData, if_neg hge, qMax_eq_max, and_self]
  · norm_num [PlotWidget.setData, minElement, maxElement, qMax]
  · norm_num [PlotWidget.setData, minElement, maxElement, qMax]

/-- Witness for `setData_autorange`: the sequence `[0.2, 0.9]` is not empty,
and the range `setData` computes from it, `(0.13, 0.97)`, is the one that the
rule gives for the minimum and maximum the theorem provides. -/
theorem setData_autorange_witness :
    ([1 / 5, 9 / 10] : List ℚ) ≠ [] ∧
    (PlotWidget.new.setData [1 / 5, 9 / 10]).m_minY = 13 / 100 ∧
    (PlotWidget.new.setData [1 / 5, 9 / 10]).m_maxY = 97 / 100 := by
  obtain ⟨lo, hi, hlo, hhi, hb, -, -, hrule⟩ :=
    (setData_autorange PlotWidget.new [1 / 5, 9 / 10] (by simp)).1
  have hlo' : lo = 1 / 5 := by
    have h1 := (hb (1 / 5) (by simp)).1
    simp only [List.mem_cons, List.mem_singleton, List.not_mem_nil, or_false] at hlo
    rcases hlo with rfl | rfl
    · rfl
    · norm_num at h1
  have hhi' : hi = 9 / 10 := by
    have h1 := (hb (9 / 10) (by simp)).2
    simp only [List.mem_cons, List.mem_singleton, List.not_mem_nil, or_false] at hhi
    rcases hhi with rfl | rfl
    · norm_num at h1
    · rfl
  subst hlo' hhi'
  have h2 := hrule (by norm_num)
  refine ⟨by simp, ?_, ?_⟩
  · rw [h2.1]; norm_num
  · rw [h2.2]; norm_num

/-! ## The curve loop of `paintEvent` -/

theorem curveX_eq (i W k : Nat) (hk : 2 ≤ k) (hov : i * W < 2147483648) :
    curveX i W k = some (((i : ℚ) * (W : ℚ)) / ((k : ℚ) - 1)) := by
  unfold curveX fdiv
  have hw : wrapInt ((i : Int) * (W : Int)) = ((i * W : Nat) : Int) := by
    rw [wrapInt_of_lt] <;> push_cast <;> first | rfl | positivity | exact_mod_cast hov
  have hne : ((((k : Int) - 1 : Int)) : ℚ) ≠ 0 := by
    have : (2 : ℚ) ≤ (k : ℚ) := by exact_mod_cast hk
    push_cast
    linarith
  rw [if_neg hne, hw]
  push_cast
  rfl

theorem ExtDouble.qMin_finite (a b : ℚ) :
    ExtDouble.qMin (ExtDouble.finite a) (ExtDouble.finite b) = ExtDouble.finite (min a b) := by
  unfold ExtDouble.qMin ExtDouble.lt
  by_cases h : a < b
  · simp [h, min_eq_left h.le]
  · simp [h, min_eq_right (not_lt.mp h)]

theorem ExtDouble.qMax_finite (a b : ℚ) :
    ExtDouble.qMax (ExtDouble.finite a) (ExtDouble.finite b) = ExtDouble.finite (max a b) := by
  unfold ExtDouble.qMax ExtDouble.lt
  by_cases h : a < b
  · simp [h, max_eq_right h.le]
  · simp [h, max_eq_left (not_lt.mp h)]

theorem curveY_eq (v minY maxY : ℚ) (H : Nat) (hr : maxY ≠ minY) :
    curveY v minY maxY H
      = ExtDouble.finite
          (max 0 (min (H : ℚ) ((H : ℚ) - ((v - minY) / (maxY - minY)) * (H : ℚ)))) := by
  unfold curveY ExtDouble.div
  rw [if_neg (sub_ne_zero.mpr hr)]
  simp only [ExtDouble.mul, ExtDouble.sub, ExtDouble.qMin_finite, ExtDouble.qMax_finite]

theorem curveY_degenerate (v minY : ℚ) (H : Nat) :
    curveY v minY minY H = ExtDouble.finite (if v < minY then (H : ℚ) else 0) := by
  have hH : (0 : ℚ) ≤ (H : ℚ) := Nat.cast_nonneg H
  unfold curveY ExtDouble.div
  rw [if_pos (sub_self minY)]
  rcases lt_trichotomy v minY with hlt | heq | hgt
  · have h1 : ¬ (0 : ℚ) < v - minY := by linarith
    have h2 : v - minY < 0 := by linarith
    rw [if_neg h1, if_pos h2, if_pos hlt]
    rcases hH.lt_or_eq with hpos | hzero
    · simp [ExtDouble.mul, ExtDouble.sub, ExtDouble.qMin, ExtDouble.qMax, ExtDouble.lt, hpos]
    · simp [ExtDouble.mul, ExtDouble.sub, ExtDouble.qMin, ExtDouble.qMax, ExtDouble.lt,
        ← hzero]
  · have h1 : ¬ (0 : ℚ) < v - minY := by rw [heq]; simp
    have h2 : ¬ v - minY < 0 := by rw [heq]; simp
    have h3 : ¬ v < minY := by rw [heq]; exact lt_irrefl _
    rw [if_neg h1, if_neg h2, if_neg h3]
    simp [ExtDouble.mul, ExtDouble.sub, ExtDouble.qMin, ExtDouble.qMax, ExtDouble.lt]
  · have h1 : (0 : ℚ) < v - minY := by linarith
    have h3 : ¬ v < minY := by linarith
    rw [if_pos h1, if_neg h3]
    rcases hH.lt_or_eq with hpos | hzero
    · simp [ExtDouble.mul, ExtDouble.sub, ExtDouble.qMin, ExtDouble.qMax, ExtDouble.lt, hpos]
    · simp [ExtDouble.mul, ExtDouble.sub, ExtDouble.qMin, ExtDouble.qMax, ExtDouble.lt,
        ← hzero]

theorem curveY_clamped (v minY maxY : ℚ) (H : Nat) :
    ∃ y : ℚ, curveY v minY maxY H = ExtDouble.finite y ∧ 0 ≤ y ∧ y ≤ (H : ℚ) := by
  have hH : (0 : ℚ) ≤ (H : ℚ) := Nat.cast_nonneg H
  by_cases hr : maxY = minY
  · rw [hr, curveY_degenerate]
    refine ⟨_, rfl, ?_, ?_⟩ <;> split_ifs <;> first | exact hH | exact le_refl _
  · exact ⟨_, curveY_eq v minY maxY H hr, le_max_left _ _, max_le hH (min_le_left _ _)⟩

theorem curvePoint_eq (p : PlotWidget) (W H i : Nat) (v : ℚ)
    (hk : 2 ≤ p.m_data.length) (hr : p.m_maxY ≠ p.m_minY)
    (hov : (p.m_data.length - 1) * W < 2147483648) (hv : p.m_data[i]? = some v) :
    curvePoint p W H i
      = some (((i : ℚ) * (W : ℚ)) / ((p.m_data.length : ℚ) - 1),
          max 0 (min (H : ℚ)
            ((H : ℚ) - ((v - p.m_minY) / (p.m_maxY - p.m_minY)) * (H : ℚ)))) := by
  have hi : i < p.m_data.length := by
    by_contra hcon
    rw [List.getElem?_eq_none (not_lt.mp hcon)] at hv
    exact Option.noConfusion hv
  have hiW : i * W < 2147483648 :=
    lt_of_le_of_lt (Nat.mul_le_mul_right W (Nat.le_sub_one_of_lt hi)) hov
  have hget : p.m_data.getD i 0 = v := by
    rw [List.getD_eq_getElem?_getD, hv]
    rfl
  unfold curvePoint
  rw [curveX_eq i W _ hk hiW, hget, curveY_eq v _ _ H hr]

theorem paintCurve_getLast (p : PlotWidget) (W H : Nat) (h : 0 < p.m_data.length) :
    (paintCurve p W H).getLast? = some (curvePoint p W H (p.m_data.length - 1)) := by
  have hl : p.m_data.length - 1 < p.m_data.length := by omega
  have hlen : (paintCurve p W H).length = p.m_data.length := by simp [paintCurve]
  rw [List.getLast?_eq_getElem?, hlen]
  simp only [paintCurve, List.getElem?_map, List.getElem?_range hl, Option.map_some']

/-- C2, as stated, fails: for a view of `257` samples with range `(0, 1)` on a
canvas of width `16777215` (the largest width of a widget) and height `100`,
the `int` product `256 * width()` overflows and the last point of the path has
`x = -1`, not `x = W`; likewise for `999999` samples on a canvas of width
`2148` the abscissa of the last sample is negative. -/
theorem paintCurve_mapping_fails :
    2 ≤ (List.replicate 257 (0 : ℚ)).length ∧ (1 : ℚ) ≠ 0 ∧
    (paintCurve { m_data := List.replicate 257 0, m_minY := 0, m_maxY := 1,
                  m_title := "" } 16777215 100).getLast? = some (some (-1, 100)) ∧
    ((-1 : ℚ) ≠ ((16777215 : Nat) : ℚ)) ∧
    curveX 256 16777215 257 = some (-1) ∧
    curveX 999998 2148 999999 = some (-1073485796 / 499999) := by
  have hx : curveX 256 16777215 257 = some (-1) := by
    norm_num [curveX, fdiv, wrapInt]
  have hlen : (List.replicate 257 (0 : ℚ)).length = 257 := List.length_replicate _ _
  have hpos : 0 < (List.replicate 257 (0 : ℚ)).length := by
    rw [hlen]
    decide
  refine ⟨by rw [hlen]; decide, one_ne_zero, ?_, by norm_num, hx, ?_⟩
  · rw [paintCurve_getLast _ _ _ hpos]
    have hy : curveY 0 0 1 100 = ExtDouble.finite 100 := by
      rw [curveY_eq 0 0 1 100 one_ne_zero]
      norm_num
    simp only [curvePoint, List.length_replicate]
    have hget : (List.replicate 257 (0 : ℚ)).getD (257 - 1) 0 = 0 := by
      rw [List.getD_eq_getElem?_getD, List.getElem?_replicate]
      split_ifs <;> rfl
    rw [hget, hy]
    have hx2 : curveX (257 - 1) 16777215 257 = some (-1) := hx
    rw [hx2]
  · norm_num [curveX, fdiv, wrapInt]

/-- C2, amended: for a sample view of length `k ≥ 2`, a display range with
`maxY ≠ minY` and a canvas `W × H` on which the `int` product `(k-1) * W` stays
below `2^31` (so that `i * width()` does not overflow), the curve loop of
`paintEvent` maps sample `i` of value `v` to `x = i*W/(k-1)` and
`y = H - ((v - minY)/(maxY - minY))*H` clamped to `[0, H]`; the path has one
point per sample, its first point has `x = 0`, its last has `x = W`, and every
`y` lies in `[0, H]`.  For `[0,1,2]` with range `(0,2)` on a `100 × 100` canvas
the points are `(0,100), (50,50), (100,0)`. -/
theorem paintCurve_mapping (p : PlotWidget) (W H : Nat)
    (hk : 2 ≤ p.m_data.length) (hr : p.m_maxY ≠ p.m_minY)
    (hov : (p.m_data.length - 1) * W < 2147483648) :
    (paintCurve p W H).length = p.m_data.length ∧
    (∀ (i : Nat) (v : ℚ), p.m_data[i]? = some v →
      ∃ y : ℚ,
        (paintCurve p W H)[i]?
          = some (some (((i : ℚ) * (W : ℚ)) / ((p.m_data.length : ℚ) - 1), y)) ∧
        y = max 0 (min (H : ℚ)
              ((H : ℚ) - ((v - p.m_minY) / (p.m_maxY - p.m_minY)) * (H : ℚ))) ∧
        0 ≤ y ∧ y ≤ (H : ℚ)) ∧
    (∃ y : ℚ, (paintCurve p W H).head? = some (some (0, y))) ∧
    (∃ y : ℚ, (paintCurve p W H).getLast? = some (some ((W : ℚ), y))) ∧
    paintCurve { m_data := [0, 1, 2], m_minY := 0, m_maxY := 2, m_title := p.m_title }
        100 100
      = [some (0, 100), some (50, 50), some (100, 0)] := by
  have hlen : (paintCurve p W H).length = p.m_data.length := by
    simp [paintCurve]
  have hpt : ∀ (i : Nat) (v : ℚ), p.m_data[i]? = some v →
      (paintCurve p W H)[i]?
        = some (some (((i : ℚ) * (W : ℚ)) / ((p.m_data.length : ℚ) - 1),
            max 0 (min (H : ℚ)
              ((H : ℚ) - ((v - p.m_minY) / (p.m_maxY - p.m_minY)) * (H : ℚ))))) := by
    intro i v hv
    have hi : i < p.m_data.length := by
      by_contra hcon
      rw [List.getElem?_eq_none (not_lt.mp hcon)] at hv
      exact Option.noConfusion hv
    simp only [paintCurve, List.getElem?_map, List.getElem?_range hi, Option.map_some']
    rw [curvePoint_eq p W H i v hk hr hov hv]
  have hH : (0 : ℚ) ≤ (H : ℚ) := Nat.cast_nonneg H
  refine ⟨hlen, ?_, ?_, ?_, ?_⟩
  · intro i v hv
    exact ⟨_, hpt i v hv, rfl, le_max_left _ _, max_le hH (min_le_left _ _)⟩
  · have h0 : 0 < p.m_data.length := by omega
    have hv : p.m_data[0]? = some (p.m_data[0]) := List.getElem?_eq_getElem h0
    have := hpt 0 _ hv
    rw [← List.head?_eq_getElem?] at this
    refine ⟨max 0 (min (H : ℚ)
      ((H : ℚ) - ((p.m_data[0] - p.m_minY) / (p.m_maxY - p.m_minY)) * (H : ℚ))), ?_⟩
    rw [this]
    simp
  · have hl : p.m_data.length - 1 < p.m_data.length := by omega
    have hv : p.m_data[p.m_data.length - 1]? = some (p.m_data[p.m_data.length - 1]) :=
      List.getElem?_eq_getElem hl
    have := hpt _ _ hv
    rw [List.getLast?_eq_getElem?, hlen, this]
    refine ⟨max 0 (min (H : ℚ)
      ((H : ℚ) - ((p.m_data[p.m_data.length - 1] - p.m_minY) / (p.m_maxY - p.m_minY))
        * (H : ℚ))), ?_⟩
    have hne : ((p.m_data.length : ℚ) - 1) ≠ 0 := by
      have : (2 : ℚ) ≤ (p.m_data.length : ℚ) := by exact_mod_cast hk
      linarith
    have hc : ((p.m_data.length - 1 : Nat) : ℚ) = (p.m_data.length : ℚ) - 1 := by
      rw [Nat.cast_sub (by omega)]
      simp
    rw [hc, mul_comm, mul_div_assoc, div_self hne, mul_one]
  · norm_num [paintCurve, curvePoint, curveX, curveY, fdiv, wrapInt, ExtDouble.div,
      ExtDouble.mul, ExtDouble.sub, ExtDouble.qMin_finite, ExtDouble.qMax_finite,
      List.range, List.range.loop]

/-- Witness for `paintCurve_mapping`: the three samples `[0.2, 0.9, 0.4]` with
range `(0, 1)` on a `300 × 200` canvas. -/
theorem paintCurve_mapping_witness :
    2 ≤ ([1 / 5, 9 / 10, 2 / 5] : List ℚ).length ∧ (1 : ℚ) ≠ 0 ∧
    (([1 / 5, 9 / 10, 2 / 5] : List ℚ).length - 1) * 300 < 2147483648 ∧
    (paintCurve { m_data := [1 / 5, 9 / 10, 2 / 5], m_minY := 0, m_maxY := 1,
                  m_title := "" } 300 200).length = 3 :=
  ⟨by decide, one_ne_zero, by decide,
    (paintCurve_mapping { m_data := [1 / 5, 9 / 10, 2 / 5], m_minY := 0, m_maxY := 1,
                          m_title := "" } 300 200 (by decide) one_ne_zero (by decide)).1⟩

/-! ## The playback state machine -/

theorem copyLoop_length (r : TrainResult) (n : Nat) :
    ∀ i : Nat, (copyLoop r i n).1.length = n ∧ (copyLoop r i n).2.1.length = n := by
  induction n with
  | zero => intro i; simp [copyLoop]
  | succ n ih =>
    intro i
    simp only [copyLoop, List.length_cons, (ih (i + 1)).1, (ih (i + 1)).2, and_self]

theorem startTraining_noPath (s : MainWindow) (env : StartEnv)
    (hpath : s.datasetPath.isEmpty = true) :
    s.startTraining env = (s, [Effect.critical "Please select a dataset file first"]) := by
  unfold MainWindow.startTraining
  simp [hpath]

theorem startTraining_noFile (s : MainWindow) (env : StartEnv)
    (hpath : s.datasetPath.isEmpty = false)
    (hfile : env.fileExists s.datasetPath = false) :
    s.startTraining env
      = ({ s with trainButtonEnabled := true, currentEpoch := 0,
                  accuracies := [], losses := [],
                  totalEpochs := env.epochInput, epochLabel := (0, env.epochInput) },
         [Effect.critical ("Dataset file not found at:\n" ++ s.datasetPath)]) := by
  unfold MainWindow.startTraining
  simp [hpath, hfile]

theorem startTraining_failure (s : MainWindow) (env : StartEnv)
    (hpath : s.datasetPath.isEmpty = false)
    (hfile : env.fileExists s.datasetPath = true)
    (hok : (env.train_network s.datasetPath (toSizeT env.epochInput)).success = false) :
    s.startTraining env
      = ({ s with trainButtonEnabled := true, currentEpoch := 0,
                  accuracies := [], losses := [],
                  totalEpochs := env.epochInput, epochLabel := (0, env.epochInput) },
         [Effect.train_network s.datasetPath (toSizeT env.epochInput),
          Effect.critical "Training failed"]) := by
  unfold MainWindow.startTraining
  simp [hpath, hfile, hok]

theorem startTraining_success (s : MainWindow) (env : StartEnv)
    (hpath : s.datasetPath.isEmpty = false)
    (hfile : env.fileExists s.datasetPath = true)
    (hok : (env.train_network s.datasetPath (toSizeT env.epochInput)).success = true) :
    s.startTraining env
      = ({ s with trainButtonEnabled := false, currentEpoch := 0,
                  totalEpochs := env.epochInput, epochLabel := (0, env.epochInput),
                  accuracies := (copyLoop (env.train_network s.datasetPath
                    (toSizeT env.epochInput)) 0 (env.train_network s.datasetPath
                    (toSizeT env.epochInput)).dataLength).1,
                  losses := (copyLoop (env.train_network s.datasetPath
                    (toSizeT env.epochInput)) 0 (env.train_network s.datasetPath
                    (toSizeT env.epochInput)).dataLength).2.1,
                  finalAccuracy := (env.train_network s.datasetPath
                    (toSizeT env.epochInput)).rustFinalAccuracy,
                  timerActive := true },
         Effect.train_network s.datasetPath (toSizeT env.epochInput) ::
           (copyLoop (env.train_network s.datasetPath (toSizeT env.epochInput)) 0
             (env.train_network s.datasetPath (toSizeT env.epochInput)).dataLength).2.2 ++
           [Effect.free_array Buffer.rustAccuracies,
            Effect.free_array Buffer.rustLosses]) := by
  unfold MainWindow.startTraining
  simp [hpath, hfile, hok]

theorem startTraining_invariant (s : MainWindow) (env : StartEnv)
    (h : s.accuracies.length = s.losses.length ∧ 0 ≤ s.currentEpoch ∧
      s.currentEpoch ≤ (s.accuracies.length : Int)) :
    (s.startTraining env).1.accuracies.length = (s.startTraining env).1.losses.length ∧
    0 ≤ (s.startTraining env).1.currentEpoch ∧
    (s.startTraining env).1.currentEpoch ≤ ((s.startTraining env).1.accuracies.length : Int) := by
  cases hpath : s.datasetPath.isEmpty with
  | true => rw [startTraining_noPath s env hpath]; exact h
  | false =>
    cases hfile : env.fileExists s.datasetPath with
    | false => rw [startTraining_noFile s env hpath hfile]; simp
    | true =>
      cases hok : (env.train_network s.datasetPath (toSizeT env.epochInput)).success with
      | false => rw [startTraining_failure s env hpath hfile hok]; simp
      | true =>
        rw [startTraining_success s env hpath hfile hok]
        have hl := copyLoop_length (env.train_network s.datasetPath (toSizeT env.epochInput))
          (env.train_network s.datasetPath (toSizeT env.epochInput)).dataLength 0
        simp only [hl.1, hl.2, le_refl, Nat.cast_nonneg, and_self]

theorem updateTrainingProgress_invariant (s : MainWindow)
    (h : s.accuracies.length = s.losses.length ∧ 0 ≤ s.currentEpoch ∧
      s.currentEpoch ≤ (s.accuracies.length : Int)) :
    s.updateTrainingProgress.accuracies.length = s.updateTrainingProgress.losses.length ∧
    0 ≤ s.updateTrainingProgress.currentEpoch ∧
    s.updateTrainingProgress.currentEpoch
      ≤ (s.updateTrainingProgress.accuracies.length : Int) := by
  unfold MainWindow.updateTrainingProgress
  split_ifs with hc
  · exact h
  · simp only
    refine ⟨h.1, ?_, ?_⟩ <;> omega

theorem updateTrainingProgress_mono (s : MainWindow) :
    s.currentEpoch ≤ s.updateTrainingProgress.currentEpoch := by
  unfold MainWindow.updateTrainingProgress
  split_ifs with hc
  · exact le_refl _
  · simp

theorem predictFruit_series (s : MainWindow) (toDouble : String → Option ExtDouble)
    (predict : ExtDouble → ExtDouble → ExtDouble → ExtDouble → String) :
    (s.predictFruit toDouble predict).1.accuracies = s.accuracies ∧
    (s.predictFruit toDouble predict).1.losses = s.losses ∧
    (s.predictFruit toDouble predict).1.currentEpoch = s.currentEpoch := by
  unfold MainWindow.predictFruit MainWindow.rejectFeature
  repeat' split
  all_goals exact ⟨rfl, rfl, rfl⟩

theorem step_invariant (s : MainWindow) (e : Event)
    (h : s.accuracies.length = s.losses.length ∧ 0 ≤ s.currentEpoch ∧
      s.currentEpoch ≤ (s.accuracies.length : Int)) :
    (step s e).accuracies.length = (step s e).losses.length ∧
    0 ≤ (step s e).currentEpoch ∧
    (step s e).currentEpoch ≤ ((step s e).accuracies.length : Int) := by
  cases e with
  | selectDataset path =>
    simp only [step, MainWindow.selectDataset]
    split_ifs
    · exact h
    · exact h
  | editFeatures texts => exact h
  | startTraining env => exact startTraining_invariant s env h
  | predictFruit toDouble predict =>
    obtain ⟨h1, h2, h3⟩ := predictFruit_series s toDouble predict
    simp only [step, h1, h2, h3]
    exact h
  | tick => exact updateTrainingProgress_invariant s h

theorem foldl_step_invariant (events : List Event) :
    ∀ s : MainWindow,
      (s.accuracies.length = s.losses.length ∧ 0 ≤ s.currentEpoch ∧
        s.currentEpoch ≤ (s.accuracies.length : Int)) →
      ((events.foldl step s).accuracies.length = (events.foldl step s).losses.length ∧
        0 ≤ (events.foldl step s).currentEpoch ∧
        (events.foldl step s).currentEpoch
          ≤ ((events.foldl step s).accuracies.length : Int)) := by
  induction events with
  | nil => intro s h; exact h
  | cons e es ih => intro s h; exact ih (step s e) (step_invariant s e h)

/-- C3: in every state reached from a fresh window by any sequence of events
(dataset selections, edits of the feature fields, `startTraining` calls that
succeed or fail, predictions and timer ticks) the accuracy and the loss
sequence have the same length `N`, the cursor satisfies
`0 ≤ currentEpoch ≤ N`, and a further tick does not decrease `currentEpoch`. -/
theorem playback_invariant (events : List Event) :
    (run events).accuracies.length = (run events).losses.length ∧
    0 ≤ (run events).currentEpoch ∧
    (run events).currentEpoch ≤ ((run events).accuracies.length : Int) ∧
    (run events).currentEpoch ≤ (run events).updateTrainingProgress.currentEpoch := by
  have h := foldl_step_invariant events MainWindow.new
    ⟨rfl, le_refl _, le_refl _⟩
  exact ⟨h.1, h.2.1, h.2.2, updateTrainingProgress_mono _⟩

theorem ticks_running (n : Nat) :
    ∀ s : MainWindow, 0 ≤ s.currentEpoch →
      s.currentEpoch + (n : Int) ≤ (s.accuracies.length : Int) →
      (ticks n s).currentEpoch = s.currentEpoch + (n : Int) ∧
      (ticks n s).accuracies = s.accuracies ∧
      (ticks n s).timerActive = s.timerActive := by
  induction n with
  | zero => intro s _ _; simp [ticks]
  | succ n ih =>
    intro s h0 hle
    have hlt : ¬ (s.accuracies.length : Int) ≤ s.currentEpoch := by
      push_cast at hle
      omega
    have hstep : s.updateTrainingProgress.currentEpoch = s.currentEpoch + 1 ∧
        s.updateTrainingProgress.accuracies = s.accuracies ∧
        s.updateTrainingProgress.timerActive = s.timerActive := by
      unfold MainWindow.updateTrainingProgress
      rw [if_neg hlt]
      exact ⟨rfl, rfl, rfl⟩
    obtain ⟨h1, h2, h3⟩ := ih s.updateTrainingProgress
      (by rw [hstep.1]; omega)
      (by rw [hstep.1, hstep.2.1]; push_cast at hle ⊢; omega)
    simp only [ticks]
    rw [h1, h2, h3, hstep.1, hstep.2.1, hstep.2.2]
    push_cast
    exact ⟨by ring, rfl, rfl⟩

theorem ticks_succ (n : Nat) :
    ∀ s : MainWindow, ticks (n + 1) s = (ticks n s).updateTrainingProgress := by
  induction n with
  | zero => intro s; rfl
  | succ n ih => intro s; exact ih s.updateTrainingProgress

/-- C4, as stated, fails: after a successful start with the two-epoch series
and exactly `N = 2` ticks the cursor is `2` but the timer is still running,
and after a successful start with the empty series (`N = 0`) and no tick the
timer is running too. -/
theorem finished_after_N_ticks_fails :
    ((MainWindow.new.selectDataset "fruits.csv").startTraining
        (envOf twoEpochRun)).1.accuracies.length = 2 ∧
    (ticks 2 ((MainWindow.new.selectDataset "fruits.csv").startTraining
        (envOf twoEpochRun)).1).currentEpoch = 2 ∧
    (ticks 2 ((MainWindow.new.selectDataset "fruits.csv").startTraining
        (envOf twoEpochRun)).1).timerActive = true ∧
    ((MainWindow.new.selectDataset "fruits.csv").startTraining
        (envOf emptyRun)).1.accuracies.length = 0 ∧
    (ticks 0 ((MainWindow.new.selectDataset "fruits.csv").startTraining
        (envOf emptyRun)).1).timerActive = true := by
  have hp : (MainWindow.new.selectDataset "fruits.csv").datasetPath.isEmpty = false := by
    decide
  have h2 := startTraining_success (MainWindow.new.selectDataset "fruits.csv")
    (envOf twoEpochRun) hp rfl rfl
  have h0 := startTraining_success (MainWindow.new.selectDataset "fruits.csv")
    (envOf emptyRun) hp rfl rfl
  rw [h2, h0]
  refine ⟨?_, ?_, ?_, ?_, ?_⟩ <;>
    simp [ticks, MainWindow.updateTrainingProgress, copyLoop, envOf, twoEpochRun, emptyRun]

/-- C4, amended: after a successful `startTraining` that received `N`
samples, the cursor is `0` and the timer runs; after exactly `N` ticks the
cursor equals `N` and the timer is still running; the next tick, number
`N + 1`, leaves the cursor at `N` and stops the timer.  For `N = 0` the timer
is started by `startTraining` and stopped by the first tick. -/
theorem finished_after_N_plus_one_ticks (s : MainWindow) (env : StartEnv)
    (hpath : s.datasetPath.isEmpty = false)
    (hfile : env.fileExists s.datasetPath = true)
    (hok : (env.train_network s.datasetPath (toSizeT env.epochInput)).success = true) :
    (s.startTraining env).1.accuracies.length
      = (env.train_network s.datasetPath (toSizeT env.epochInput)).dataLength ∧
    (s.startTraining env).1.currentEpoch = 0 ∧
    (s.startTraining env).1.timerActive = true ∧
    (ticks (s.startTraining env).1.accuracies.length (s.startTraining env).1).currentEpoch
      = ((s.startTraining env).1.accuracies.length : Int) ∧
    (ticks (s.startTraining env).1.accuracies.length (s.startTraining env).1).timerActive
      = true ∧
    (ticks ((s.startTraining env).1.accuracies.length + 1)
      (s.startTraining env).1).currentEpoch
      = ((s.startTraining env).1.accuracies.length : Int) ∧
    (ticks ((s.startTraining env).1.accuracies.length + 1)
      (s.startTraining env).1).timerActive = false := by
  have hs := startTraining_success s env hpath hfile hok
  have hlen : (s.startTraining env).1.accuracies.length
      = (env.train_network s.datasetPath (toSizeT env.epochInput)).dataLength := by
    rw [hs]
    exact (copyLoop_length _ _ 0).1
  have hcur : (s.startTraining env).1.currentEpoch = 0 := by rw [hs]
  have htim : (s.startTraining env).1.timerActive = true := by rw [hs]
  obtain ⟨h1, h2, h3⟩ := ticks_running (s.startTraining env).1.accuracies.length
    (s.startTraining env).1 (by rw [hcur]) (by rw [hcur]; simp)
  rw [hcur, zero_add] at h1
  rw [htim] at h3
  have hfin : (((ticks (s.startTraining env).1.accuracies.length
      (s.startTraining env).1).accuracies.length : Nat) : Int)
      ≤ (ticks (s.startTraining env).1.accuracies.length
          (s.startTraining env).1).currentEpoch := by
    rw [h1, h2]
  refine ⟨hlen, hcur, htim, h1, h3, ?_, ?_⟩
  · rw [ticks_succ]
    unfold MainWindow.updateTrainingProgress
    rw [if_pos hfin]
    exact h1
  · rw [ticks_succ]
    unfold MainWindow.updateTrainingProgress
    rw [if_pos hfin]

/-- Witness for `finished_after_N_plus_one_ticks`: a fresh window with the
dataset `fruits.csv` selected and the two-epoch engine. -/
theorem finished_after_N_plus_one_ticks_witness :
    (MainWindow.new.selectDataset "fruits.csv").datasetPath.isEmpty = false ∧
    (ticks (((MainWindow.new.selectDataset "fruits.csv").startTraining
        (envOf twoEpochRun)).1.accuracies.length + 1)
      ((MainWindow.new.selectDataset "fruits.csv").startTraining
        (envOf twoEpochRun)).1).timerActive = false :=
  ⟨by decide,
    (finished_after_N_plus_one_ticks (MainWindow.new.selectDataset "fruits.csv")
      (envOf twoEpochRun) (by decide) rfl rfl).2.2.2.2.2.2⟩

/-! ## The boundary to the native engine -/

theorem copyLoop_reads (r : TrainResult) (n : Nat) :
    ∀ i : Nat, ∀ e ∈ (copyLoop r i n).2.2,
      ∃ (b : Buffer) (j : Nat), e = Effect.readArray b j ∧ j < i + n := by
  induction n with
  | zero => intro i e he; simp [copyLoop] at he
  | succ n ih =>
    intro i e he
    simp only [copyLoop, List.mem_cons] at he
    rcases he with rfl | rfl | he
    · exact ⟨Buffer.rustAccuracies, i, rfl, by omega⟩
    · exact ⟨Buffer.rustLosses, i, rfl, by omega⟩
    · obtain ⟨b, j, hj, hlt⟩ := ih (i + 1) e he
      exact ⟨b, j, hj, by omega⟩

theorem copyLoop_no_free (r : TrainResult) (n i : Nat) (b : Buffer) :
    Effect.free_array b ∉ (copyLoop r i n).2.2 := by
  intro hmem
  obtain ⟨b', j, hj, -⟩ := copyLoop_reads r n i _ hmem
  exact Effect.noConfusion hj

theorem checkedFeature_eq_some (toDouble : String → Option ExtDouble) (text : String)
    (v : ExtDouble) :
    checkedFeature toDouble text = some v ↔
      toDouble text = some v ∧ ExtDouble.le v (ExtDouble.finite 0) = false := by
  unfold checkedFeature
  cases h : toDouble text with
  | none => simp
  | some w =>
    cases hw : ExtDouble.le w (ExtDouble.finite 0) with
    | true =>
      simp only [hw, if_true, Option.some.injEq]
      constructor
      · intro hcon
        exact Option.noConfusion hcon
      · rintro ⟨hwv, hle⟩
        rw [← hwv, hw] at hle
        exact Bool.noConfusion hle
    | false =>
      simp only [hw, Bool.false_eq_true, if_false, Option.some.injEq]
      constructor
      · intro hwv
        exact ⟨hwv, by rw [← hwv]; exact hw⟩
      · exact fun hwv => hwv.1

theorem checkedFeature_eq_none (toDouble : String → Option ExtDouble) (text : String) :
    checkedFeature toDouble text = none ↔
      ¬ ∃ v : ExtDouble, toDouble text = some v ∧
        ExtDouble.le v (ExtDouble.finite 0) = false := by
  constructor
  · rintro hnone ⟨v, hv⟩
    rw [(checkedFeature_eq_some toDouble text v).mpr hv] at hnone
    exact Option.noConfusion hnone
  · intro hno
    cases hc : checkedFeature toDouble text with
    | none => rfl
    | some v => exact absurd ⟨v, (checkedFeature_eq_some toDouble text v).mp hc⟩ hno

theorem predictFruit_cases (s : MainWindow) (toDouble : String → Option ExtDouble)
    (predict : ExtDouble → ExtDouble → ExtDouble → ExtDouble → String) :
    (checkedFeature toDouble (s.featureInputs.getD 0 "") = none ∧
      s.predictFruit toDouble predict = s.rejectFeature "Invalid weight (must be > 0)") ∨
    (checkedFeature toDouble (s.featureInputs.getD 1 "") = none ∧
      s.predictFruit toDouble predict = s.rejectFeature "Invalid size (must be > 0)") ∨
    (checkedFeature toDouble (s.featureInputs.getD 2 "") = none ∧
      s.predictFruit toDouble predict = s.rejectFeature "Invalid width (must be > 0)") ∨
    (checkedFeature toDouble (s.featureInputs.getD 3 "") = none ∧
      s.predictFruit toDouble predict = s.rejectFeature "Invalid height (must be > 0)") ∨
    (∃ weight size width height : ExtDouble,
      checkedFeature toDouble (s.featureInputs.getD 0 "") = some weight ∧
      checkedFeature toDouble (s.featureInputs.getD 1 "") = some size ∧
      checkedFeature toDouble (s.featureInputs.getD 2 "") = some width ∧
      checkedFeature toDouble (s.featureInputs.getD 3 "") = some height ∧
      (s.predictFruit toDouble predict).2
        = [Effect.predict weight size width height, Effect.readString,
           Effect.free_string]) := by
  unfold MainWindow.predictFruit
  cases h0 : checkedFeature toDouble (s.featureInputs.getD 0 "") with
  | none => left; exact ⟨rfl, rfl⟩
  | some weight =>
  cases h1 : checkedFeature toDouble (s.featureInputs.getD 1 "") with
  | none => right; left; exact ⟨rfl, rfl⟩
  | some size =>
  cases h2 : checkedFeature toDouble (s.featureInputs.getD 2 "") with
  | none => right; right; left; exact ⟨rfl, rfl⟩
  | some width =>
  cases h3 : checkedFeature toDouble (s.featureInputs.getD 3 "") with
  | none => right; right; right; left; exact ⟨rfl, rfl⟩
  | some height =>
    right; right; right; right
    exact ⟨weight, size, width, height, rfl, rfl, rfl, rfl, rfl⟩

/-- C5: when `startTraining` reaches `train_network` and the call returns
true, its effect trace is the call, then reads of the two buffers at indices
below `dataLength`, then `free_array` on the accuracy buffer and `free_array`
on the loss buffer as the last two effects: each buffer is freed exactly once
and after every read.  When `startTraining` takes any other path (in
particular when `train_network` returns false) the trace holds no `free_array`.
Whenever `predictFruit` calls `predict`, its trace is the call, the copy of the
returned string, then `free_string`, which thus occurs exactly once. -/
theorem boundary_memory_discipline (s : MainWindow) (env : StartEnv)
    (toDouble : String → Option ExtDouble) (predict : ExtDouble → ExtDouble → ExtDouble → ExtDouble → String) :
    ((s.datasetPath.isEmpty = false ∧ env.fileExists s.datasetPath = true ∧
        (env.train_network s.datasetPath (toSizeT env.epochInput)).success = true) →
      (∃ reads : List Effect,
        (s.startTraining env).2
          = Effect.train_network s.datasetPath (toSizeT env.epochInput) :: reads ++
              [Effect.free_array Buffer.rustAccuracies,
               Effect.free_array Buffer.rustLosses] ∧
        ∀ e ∈ reads, ∃ (b : Buffer) (j : Nat), e = Effect.readArray b j ∧
          j < (env.train_network s.datasetPath (toSizeT env.epochInput)).dataLength) ∧
      (s.startTraining env).2.count (Effect.free_array Buffer.rustAccuracies) = 1 ∧
      (s.startTraining env).2.count (Effect.free_array Buffer.rustLosses) = 1) ∧
    (¬ (s.datasetPath.isEmpty = false ∧ env.fileExists s.datasetPath = true ∧
        (env.train_network s.datasetPath (toSizeT env.epochInput)).success = true) →
      ∀ b : Buffer, (s.startTraining env).2.count (Effect.free_array b) = 0) ∧
    ((∃ w z x h : ExtDouble,
        Effect.predict w z x h ∈ (s.predictFruit toDouble predict).2) →
      (∃ w z x h : ExtDouble, (s.predictFruit toDouble predict).2
        = [Effect.predict w z x h, Effect.readString, Effect.free_string]) ∧
      (s.predictFruit toDouble predict).2.count Effect.free_string = 1) := by
  refine ⟨?_, ?_, ?_⟩
  · rintro ⟨hpath, hfile, hok⟩
    rw [startTraining_success s env hpath hfile hok]
    have hnf := copyLoop_no_free (env.train_network s.datasetPath (toSizeT env.epochInput))
      (env.train_network s.datasetPath (toSizeT env.epochInput)).dataLength 0
    refine ⟨⟨_, rfl, ?_⟩, ?_, ?_⟩
    · intro e he
      obtain ⟨b, j, hj, hlt⟩ := copyLoop_reads _ _ 0 e he
      exact ⟨b, j, hj, by omega⟩
    · simp only [List.cons_append, List.count_cons, List.count_append,
        List.count_eq_zero.mpr (hnf Buffer.rustAccuracies), List.count_nil]
      simp
    · simp only [List.cons_append, List.count_cons, List.count_append,
        List.count_eq_zero.mpr (hnf Buffer.rustLosses), List.count_nil]
      simp
  · intro hnot b
    cases hpath : s.datasetPath.isEmpty with
    | true => rw [startTraining_noPath s env hpath]; simp
    | false =>
      cases hfile : env.fileExists s.datasetPath with
      | false => rw [startTraining_noFile s env hpath hfile]; simp
      | true =>
        cases hok : (env.train_network s.datasetPath (toSizeT env.epochInput)).success with
        | false => rw [startTraining_failure s env hpath hfile hok]; simp
        | true => exact absurd ⟨hpath, hfile, hok⟩ hnot
  · rintro ⟨w, z, x, h, hmem⟩
    rcases predictFruit_cases s toDouble predict with
      ⟨-, hr⟩ | ⟨-, hr⟩ | ⟨-, hr⟩ | ⟨-, hr⟩ | ⟨w', z', x', h', -, -, -, -, ht⟩
    · rw [hr] at hmem; exact absurd hmem (List.not_mem_nil _)
    · rw [hr] at hmem; exact absurd hmem (List.not_mem_nil _)
    · rw [hr] at hmem; exact absurd hmem (List.not_mem_nil _)
    · rw [hr] at hmem; exact absurd hmem (List.not_mem_nil _)
    · rw [ht]
      exact ⟨⟨w', z', x', h', rfl⟩, by simp⟩

/-- Witness for `boundary_memory_discipline`: a window with `fruits.csv`
selected, the two-epoch engine, and feature fields holding
`150.0, 7.5, 6.0, 6.0`. -/
theorem boundary_memory_discipline_witness :
    (run [Event.selectDataset "fruits.csv",
          Event.editFeatures ["150.0", "7.5", "6.0", "6.0"]]).datasetPath.isEmpty = false ∧
    ((run [Event.selectDataset "fruits.csv",
          Event.editFeatures ["150.0", "7.5", "6.0", "6.0"]]).startTraining
        (envOf twoEpochRun)).2.count (Effect.free_array Buffer.rustAccuracies) = 1 ∧
    ((run [Event.selectDataset "fruits.csv",
          Event.editFeatures ["150.0", "7.5", "6.0", "6.0"]]).startTraining
        (envOf failedRun)).2.count (Effect.free_array Buffer.rustAccuracies) = 0 ∧
    ((run [Event.selectDataset "fruits.csv",
          Event.editFeatures ["150.0", "7.5", "6.0", "6.0"]]).predictFruit
        sampleToDouble samplePredict).2.count Effect.free_string = 1 := by
  have hp : (run [Event.selectDataset "fruits.csv",
      Event.editFeatures ["150.0", "7.5", "6.0", "6.0"]]).datasetPath.isEmpty = false := by
    decide
  refine ⟨hp, ?_, ?_, ?_⟩
  · exact ((boundary_memory_discipline _ (envOf twoEpochRun) sampleToDouble
      samplePredict).1 ⟨hp, rfl, rfl⟩).2.1
  · exact (boundary_memory_discipline _ (envOf failedRun) sampleToDouble
      samplePredict).2.1 (fun h => Bool.noConfusion h.2.2) Buffer.rustAccuracies
  · refine ((boundary_memory_discipline _ (envOf twoEpochRun) sampleToDouble
      samplePredict).2.2 ⟨ExtDouble.finite 150, ExtDouble.finite (15 / 2),
        ExtDouble.finite 6, ExtDouble.finite 6, ?_⟩).2
    have h0 : checkedFeature sampleToDouble "150.0" = some (ExtDouble.finite 150) := by
      simp [checkedFeature, sampleToDouble, ExtDouble.le]
    have h1 : checkedFeature sampleToDouble "7.5" = some (ExtDouble.finite (15 / 2)) := by
      simp [checkedFeature, sampleToDouble, ExtDouble.le]
    have h2 : checkedFeature sampleToDouble "6.0" = some (ExtDouble.finite 6) := by
      simp [checkedFeature, sampleToDouble, ExtDouble.le]
    simp [MainWindow.predictFruit, run, step, h0, h1, h2]

/-- C6, as stated, fails: after a successful two-epoch run the window holds
the accuracies `[0.5, 0.75]` and the losses `[0.9, 0.4]`; a further
`startTraining` in which `train_network` returns false leaves both sequences
empty, not as they were. -/
theorem failed_training_keeps_series_fails :
    (run [Event.selectDataset "fruits.csv",
          Event.startTraining (envOf twoEpochRun)]).accuracies = [1 / 2, 3 / 4] ∧
    (run [Event.selectDataset "fruits.csv",
          Event.startTraining (envOf twoEpochRun)]).losses = [9 / 10, 2 / 5] ∧
    ((envOf failedRun).train_network "fruits.csv" (toSizeT 5000)).success = false ∧
    ((run [Event.selectDataset "fruits.csv",
          Event.startTraining (envOf twoEpochRun)]).startTraining
        (envOf failedRun)).1.accuracies = [] ∧
    ((run [Event.selectDataset "fruits.csv",
          Event.startTraining (envOf twoEpochRun)]).startTraining
        (envOf failedRun)).1.losses = [] ∧
    ((run [Event.selectDataset "fruits.csv",
          Event.startTraining (envOf twoEpochRun)]).startTraining
        (envOf failedRun)).1.accuracies
      ≠ (run [Event.selectDataset "fruits.csv",
          Event.startTraining (envOf twoEpochRun)]).accuracies := by
  have hp : (MainWindow.new.selectDataset "fruits.csv").datasetPath.isEmpty = false := by
    decide
  have h2 := startTraining_success (MainWindow.new.selectDataset "fruits.csv")
    (envOf twoEpochRun) hp rfl rfl
  have hrun : run [Event.selectDataset "fruits.csv",
      Event.startTraining (envOf twoEpochRun)]
      = ((MainWindow.new.selectDataset "fruits.csv").startTraining (envOf twoEpochRun)).1 :=
    rfl
  have hp2 : (run [Event.selectDataset "fruits.csv",
      Event.startTraining (envOf twoEpochRun)]).datasetPath.isEmpty = false := by
    rw [hrun, h2]; exact hp
  have hf := startTraining_failure _ (envOf failedRun) hp2 rfl rfl
  have ha : (run [Event.selectDataset "fruits.csv",
      Event.startTraining (envOf twoEpochRun)]).accuracies = [1 / 2, 3 / 4] := by
    rw [hrun, h2]
    simp [copyLoop, envOf, twoEpochRun]
  have hl : (run [Event.selectDataset "fruits.csv",
      Event.startTraining (envOf twoEpochRun)]).losses = [9 / 10, 2 / 5] := by
    rw [hrun, h2]
    simp [copyLoop, envOf, twoEpochRun]
  refine ⟨ha, hl, rfl, ?_, ?_, ?_⟩
  · rw [hf]
  · rw [hf]
  · rw [hf, ha]
    simp

/-- C6, amended: when `startTraining` reaches `train_network` and the call
returns failure, nothing the engine produced is stored: both the accuracy and
the loss sequence are empty afterwards (they are cleared before the call,
whatever they held), the cursor is `0`, the final accuracy is the one held
before, and the two plots are left as they were. -/
theorem failed_training_clears_series (s : MainWindow) (env : StartEnv)
    (hpath : s.datasetPath.isEmpty = false)
    (hfile : env.fileExists s.datasetPath = true)
    (hok : (env.train_network s.datasetPath (toSizeT env.epochInput)).success = false) :
    (s.startTraining env).1.accuracies = [] ∧
    (s.startTraining env).1.losses = [] ∧
    (s.startTraining env).1.currentEpoch = 0 ∧
    (s.startTraining env).1.finalAccuracy = s.finalAccuracy ∧
    (s.startTraining env).1.accuracyPlot = s.accuracyPlot ∧
    (s.startTraining env).1.lossPlot = s.lossPlot := by
  rw [startTraining_failure s env hpath hfile hok]
  exact ⟨rfl, rfl, rfl, rfl, rfl, rfl⟩

/-- Witness for `failed_training_clears_series`: a fresh window with
`fruits.csv` selected and an engine that fails. -/
theorem failed_training_clears_series_witness :
    (MainWindow.new.selectDataset "fruits.csv").datasetPath.isEmpty = false ∧
    ((MainWindow.new.selectDataset "fruits.csv").startTraining
      (envOf failedRun)).1.accuracies = [] :=
  ⟨by decide,
    (failed_training_clears_series (MainWindow.new.selectDataset "fruits.csv")
      (envOf failedRun) (by decide) rfl rfl).1⟩

/-! ## Validation of the prediction inputs -/

theorem ExtDouble.le_zero_eq_false_iff (v : ExtDouble) :
    ExtDouble.le v (ExtDouble.finite 0) = false ↔
      (v = ExtDouble.nan ∨ v = ExtDouble.posInf ∨
        ∃ q : ℚ, v = ExtDouble.finite q ∧ 0 < q) := by
  cases v with
  | finite q => simp [ExtDouble.le]
  | posInf => simp [ExtDouble.le]
  | negInf => simp [ExtDouble.le]
  | nan => simp [ExtDouble.le]

/-- What the validation in `predictFruit` does.  `predict` is called exactly
when each of the four feature texts is read with `ok` true and the guard
`value <= 0` is false for the value read (a value `> 0`, and also NaN, see
`ExtDouble.le_zero_eq_false_iff`); the call then passes the four values read.
Otherwise no boundary call is made and the prediction label shows the message
of a field that the guard rejects.  When the weight text is read as `-1` the
label shows `"Invalid weight (must be > 0)"` and no call is made, whatever the
other three texts are. -/
theorem predictFruit_calls_iff (s : MainWindow) (toDouble : String → Option ExtDouble)
    (predict : ExtDouble → ExtDouble → ExtDouble → ExtDouble → String) :
    ((∃ w z x h : ExtDouble,
        Effect.predict w z x h ∈ (s.predictFruit toDouble predict).2) ↔
      ((∃ v : ExtDouble, toDouble (s.featureInputs.getD 0 "") = some v ∧
          ExtDouble.le v (ExtDouble.finite 0) = false) ∧
       (∃ v : ExtDouble, toDouble (s.featureInputs.getD 1 "") = some v ∧
          ExtDouble.le v (ExtDouble.finite 0) = false) ∧
       (∃ v : ExtDouble, toDouble (s.featureInputs.getD 2 "") = some v ∧
          ExtDouble.le v (ExtDouble.finite 0) = false) ∧
       (∃ v : ExtDouble, toDouble (s.featureInputs.getD 3 "") = some v ∧
          ExtDouble.le v (ExtDouble.finite 0) = false))) ∧
    (∀ w z x h : ExtDouble,
      Effect.predict w z x h ∈ (s.predictFruit toDouble predict).2 →
      toDouble (s.featureInputs.getD 0 "") = some w ∧
      toDouble (s.featureInputs.getD 1 "") = some z ∧
      toDouble (s.featureInputs.getD 2 "") = some x ∧
      toDouble (s.featureInputs.getD 3 "") = some h) ∧
    (¬ ((∃ v : ExtDouble, toDouble (s.featureInputs.getD 0 "") = some v ∧
          ExtDouble.le v (ExtDouble.finite 0) = false) ∧
        (∃ v : ExtDouble, toDouble (s.featureInputs.getD 1 "") = some v ∧
          ExtDouble.le v (ExtDouble.finite 0) = false) ∧
        (∃ v : ExtDouble, toDouble (s.featureInputs.getD 2 "") = some v ∧
          ExtDouble.le v (ExtDouble.finite 0) = false) ∧
        (∃ v : ExtDouble, toDouble (s.featureInputs.getD 3 "") = some v ∧
          ExtDouble.le v (ExtDouble.finite 0) = false)) →
      (s.predictFruit toDouble predict).2 = [] ∧
      (((s.predictFruit toDouble predict).1.predictionLabel = "Invalid weight (must be > 0)" ∧
          ¬ ∃ v : ExtDouble, toDouble (s.featureInputs.getD 0 "") = some v ∧
            ExtDouble.le v (ExtDouble.finite 0) = false) ∨
       ((s.predictFruit toDouble predict).1.predictionLabel = "Invalid size (must be > 0)" ∧
          ¬ ∃ v : ExtDouble, toDouble (s.featureInputs.getD 1 "") = some v ∧
            ExtDouble.le v (ExtDouble.finite 0) = false) ∨
       ((s.predictFruit toDouble predict).1.predictionLabel = "Invalid width (must be > 0)" ∧
          ¬ ∃ v : ExtDouble, toDouble (s.featureInputs.getD 2 "") = some v ∧
            ExtDouble.le v (ExtDouble.finite 0) = false) ∨
       ((s.predictFruit toDouble predict).1.predictionLabel = "Invalid height (must be > 0)" ∧
          ¬ ∃ v : ExtDouble, toDouble (s.featureInputs.getD 3 "") = some v ∧
            ExtDouble.le v (ExtDouble.finite 0) = false))) ∧
    (toDouble (s.featureInputs.getD 0 "") = some (ExtDouble.finite (-1)) →
      (s.predictFruit toDouble predict).2 = [] ∧
      (s.predictFruit toDouble predict).1.predictionLabel
        = "Invalid weight (must be > 0)") := by
  have hcases := predictFruit_cases s toDouble predict
  refine ⟨⟨?_, ?_⟩, ?_, ?_, ?_⟩
  · rintro ⟨w, z, x, h, hmem⟩
    rcases hcases with ⟨-, hr⟩ | ⟨-, hr⟩ | ⟨-, hr⟩ | ⟨-, hr⟩ | ⟨w', z', x', h', c0, c1, c2, c3, -⟩
    · rw [hr] at hmem; exact absurd hmem (List.not_mem_nil _)
    · rw [hr] at hmem; exact absurd hmem (List.not_mem_nil _)
    · rw [hr] at hmem; exact absurd hmem (List.not_mem_nil _)
    · rw [hr] at hmem; exact absurd hmem (List.not_mem_nil _)
    · exact ⟨⟨w', (checkedFeature_eq_some _ _ _).mp c0⟩,
        ⟨z', (checkedFeature_eq_some _ _ _).mp c1⟩,
        ⟨x', (checkedFeature_eq_some _ _ _).mp c2⟩,
        ⟨h', (checkedFeature_eq_some _ _ _).mp c3⟩⟩
  · rintro ⟨v0, v1, v2, v3⟩
    rcases hcases with ⟨c, -⟩ | ⟨c, -⟩ | ⟨c, -⟩ | ⟨c, -⟩ | ⟨w', z', x', h', -, -, -, -, ht⟩
    · exact absurd v0 ((checkedFeature_eq_none _ _).mp c)
    · exact absurd v1 ((checkedFeature_eq_none _ _).mp c)
    · exact absurd v2 ((checkedFeature_eq_none _ _).mp c)
    · exact absurd v3 ((checkedFeature_eq_none _ _).mp c)
    · exact ⟨w', z', x', h', by rw [ht]; exact List.mem_cons_self _ _⟩
  · intro w z x h hmem
    rcases hcases with ⟨-, hr⟩ | ⟨-, hr⟩ | ⟨-, hr⟩ | ⟨-, hr⟩ | ⟨w', z', x', h', c0, c1, c2, c3, ht⟩
    · rw [hr] at hmem; exact absurd hmem (List.not_mem_nil _)
    · rw [hr] at hmem; exact absurd hmem (List.not_mem_nil _)
    · rw [hr] at hmem; exact absurd hmem (List.not_mem_nil _)
    · rw [hr] at hmem; exact absurd hmem (List.not_mem_nil _)
    · rw [ht] at hmem
      simp only [List.mem_cons, Effect.predict.injEq, List.mem_singleton, List.not_mem_nil,
        or_false, reduceCtorEq] at hmem
      obtain ⟨rfl, rfl, rfl, rfl⟩ := hmem
      exact ⟨((checkedFeature_eq_some _ _ _).mp c0).1, ((checkedFeature_eq_some _ _ _).mp c1).1,
        ((checkedFeature_eq_some _ _ _).mp c2).1, ((checkedFeature_eq_some _ _ _).mp c3).1⟩
  · intro hnot
    rcases hcases with ⟨c, hr⟩ | ⟨c, hr⟩ | ⟨c, hr⟩ | ⟨c, hr⟩ | ⟨w', z', x', h', c0, c1, c2, c3, -⟩
    · exact ⟨by rw [hr]; rfl, Or.inl ⟨by rw [hr]; rfl, (checkedFeature_eq_none _ _).mp c⟩⟩
    · exact ⟨by rw [hr]; rfl,
        Or.inr (Or.inl ⟨by rw [hr]; rfl, (checkedFeature_eq_none _ _).mp c⟩)⟩
    · exact ⟨by rw [hr]; rfl,
        Or.inr (Or.inr (Or.inl ⟨by rw [hr]; rfl, (checkedFeature_eq_none _ _).mp c⟩))⟩
    · exact ⟨by rw [hr]; rfl,
        Or.inr (Or.inr (Or.inr ⟨by rw [hr]; rfl, (checkedFeature_eq_none _ _).mp c⟩))⟩
    · exact absurd ⟨⟨w', (checkedFeature_eq_some _ _ _).mp c0⟩,
        ⟨z', (checkedFeature_eq_some _ _ _).mp c1⟩,
        ⟨x', (checkedFeature_eq_some _ _ _).mp c2⟩,
        ⟨h', (checkedFeature_eq_some _ _ _).mp c3⟩⟩ hnot
  · intro hw
    have hc : checkedFeature toDouble (s.featureInputs.getD 0 "") = none := by
      rw [checkedFeature_eq_none]
      rintro ⟨v, hv, hpos⟩
      rw [hw] at hv
      have hv1 : v = ExtDouble.finite (-1) := (Option.some.inj hv).symm
      rw [hv1] at hpos
      simp [ExtDouble.le] at hpos
    unfold MainWindow.predictFruit
    rw [hc]
    exact ⟨rfl, rfl⟩

/-- C7 (what the code does): the guard `!ok || value <= 0` lets NaN through.
With the weight field holding the text `nan`, which is read as NaN with `ok`
true, and the other three fields holding `7.5`, `6.0`, `6.0`, `predictFruit`
calls `predict(NaN, 7.5, 6, 6)` and shows the engine's answer, although the
weight is not `> 0` (`0 < NaN` is false); the claim has no call and the weight
message there.  With the weight field holding `-1` no call is made and the
weight message is shown, as the claim says. -/
theorem predictFruit_accepts_nan :
    sampleToDouble "nan" = some ExtDouble.nan ∧
    ExtDouble.lt (ExtDouble.finite 0) ExtDouble.nan = false ∧
    ((run [Event.editFeatures ["nan", "7.5", "6.0", "6.0"]]).predictFruit
        sampleToDouble samplePredict).2
      = [Effect.predict ExtDouble.nan (ExtDouble.finite (15 / 2)) (ExtDouble.finite 6)
           (ExtDouble.finite 6), Effect.readString, Effect.free_string] ∧
    ((run [Event.editFeatures ["nan", "7.5", "6.0", "6.0"]]).predictFruit
        sampleToDouble samplePredict).1.predictionLabel = "Prediction: apple" ∧
    ((run [Event.editFeatures ["-1", "7.5", "6.0", "6.0"]]).predictFruit
        sampleToDouble samplePredict).2 = [] ∧
    ((run [Event.editFeatures ["-1", "7.5", "6.0", "6.0"]]).predictFruit
        sampleToDouble samplePredict).1.predictionLabel
      = "Invalid weight (must be > 0)" := by
  have hn : checkedFeature sampleToDouble "nan" = some ExtDouble.nan := by
    simp [checkedFeature, sampleToDouble, ExtDouble.le]
  have h1 : checkedFeature sampleToDouble "7.5" = some (ExtDouble.finite (15 / 2)) := by
    simp [checkedFeature, sampleToDouble, ExtDouble.le]
  have h2 : checkedFeature sampleToDouble "6.0" = some (ExtDouble.finite 6) := by
    simp [checkedFeature, sampleToDouble, ExtDouble.le]
  have hm : checkedFeature sampleToDouble "-1" = none := by
    simp [checkedFeature, sampleToDouble, ExtDouble.le]
  refine ⟨by simp [sampleToDouble], rfl, ?_, ?_, ?_, ?_⟩
  · simp [MainWindow.predictFruit, run, step, hn, h1, h2]
  · simp [MainWindow.predictFruit, run, step, hn, h1, h2, samplePredict]
  · simp [MainWindow.predictFruit, MainWindow.rejectFeature, run, step, hm]
  · simp [MainWindow.predictFruit, MainWindow.rejectFeature, run, step, hm]

/-! ## What one timer tick does -/

theorem updateTrainingProgress_running (s : MainWindow)
    (hlt : s.currentEpoch < (s.accuracies.length : Int)) :
    s.updateTrainingProgress
      = { s with progressValue := s.currentEpoch + 1,
                 epochLabel := (s.currentEpoch + 1, s.totalEpochs),
                 accuracyLabel :=
                   AccuracyText.current (s.accuracies.getD s.currentEpoch.toNat 0 * 100),
                 accuracyPlot :=
                   s.accuracyPlot.setData (s.accuracies.take (s.currentEpoch.toNat + 1)),
                 lossPlot := s.lossPlot.setData (s.losses.take (s.currentEpoch.toNat + 1)),
                 currentEpoch := s.currentEpoch + 1 } := by
  unfold MainWindow.updateTrainingProgress
  rw [if_neg (not_le.mpr hlt)]

theorem updateTrainingProgress_finished (s : MainWindow)
    (hge : (s.accuracies.length : Int) ≤ s.currentEpoch) :
    s.updateTrainingProgress
      = { s with timerActive := false, trainButtonEnabled := true,
                 accuracyLabel := AccuracyText.final (s.finalAccuracy * 100) } := by
  unfold MainWindow.updateTrainingProgress
  rw [if_pos hge]

theorem setData_range_eq (p q : PlotWidget) (data : List ℚ) (h : data ≠ []) :
    (p.setData data).m_minY = (q.setData data).m_minY ∧
    (p.setData data).m_maxY = (q.setData data).m_maxY := by
  cases data with
  | nil => exact absurd rfl h
  | cons x xs =>
    simp only [PlotWidget.setData]
    split_ifs <;> exact ⟨rfl, rfl⟩

theorem selectDataset_nonempty (s : MainWindow) (path : String)
    (h : path.isEmpty = false) :
    s.selectDataset path = { s with datasetPath := path } := by
  unfold MainWindow.selectDataset
  rw [h]
  rfl

/-- C8, as stated, fails: in the running state right after a successful start
with the two-epoch series the accuracy plot has range `(0, 1)` and the loss
plot `(0, 2)`; the first tick changes them to `(0.45, 0.55)` and
`(0.85, 0.95)`, and the second tick changes the accuracy range again, to
`(0.475, 0.775)`. -/
theorem tick_keeps_range_fails :
    ((MainWindow.new.selectDataset "fruits.csv").startTraining
        (envOf twoEpochRun)).1.timerActive = true ∧
    ((MainWindow.new.selectDataset "fruits.csv").startTraining
        (envOf twoEpochRun)).1.currentEpoch = 0 ∧
    ((MainWindow.new.selectDataset "fruits.csv").startTraining
        (envOf twoEpochRun)).1.accuracies.length = 2 ∧
    (((MainWindow.new.selectDataset "fruits.csv").startTraining
        (envOf twoEpochRun)).1.accuracyPlot.m_minY = 0 ∧
      ((MainWindow.new.selectDataset "fruits.csv").startTraining
        (envOf twoEpochRun)).1.accuracyPlot.m_maxY = 1) ∧
    (((MainWindow.new.selectDataset "fruits.csv").startTraining
        (envOf twoEpochRun)).1.lossPlot.m_minY = 0 ∧
      ((MainWindow.new.selectDataset "fruits.csv").startTraining
        (envOf twoEpochRun)).1.lossPlot.m_maxY = 2) ∧
    ((ticks 1 ((MainWindow.new.selectDataset "fruits.csv").startTraining
        (envOf twoEpochRun)).1).accuracyPlot.m_minY = 9 / 20 ∧
      (ticks 1 ((MainWindow.new.selectDataset "fruits.csv").startTraining
        (envOf twoEpochRun)).1).accuracyPlot.m_maxY = 11 / 20) ∧
    ((ticks 1 ((MainWindow.new.selectDataset "fruits.csv").startTraining
        (envOf twoEpochRun)).1).lossPlot.m_minY = 17 / 20 ∧
      (ticks 1 ((MainWindow.new.selectDataset "fruits.csv").startTraining
        (envOf twoEpochRun)).1).lossPlot.m_maxY = 19 / 20) ∧
    ((ticks 2 ((MainWindow.new.selectDataset "fruits.csv").startTraining
        (envOf twoEpochRun)).1).accuracyPlot.m_minY = 19 / 40 ∧
      (ticks 2 ((MainWindow.new.selectDataset "fruits.csv").startTraining
        (envOf twoEpochRun)).1).accuracyPlot.m_maxY = 31 / 40) := by
  have hp : (MainWindow.new.selectDataset "fruits.csv").datasetPath.isEmpty = false := by
    decide
  rw [startTraining_success (MainWindow.new.selectDataset "fruits.csv")
    (envOf twoEpochRun) hp rfl rfl]
  rw [selectDataset_nonempty MainWindow.new "fruits.csv" (by decide)]
  refine ⟨rfl, rfl, ?_, ?_, ?_, ?_, ?_, ?_⟩
  · simp [copyLoop, envOf, twoEpochRun]
  · exact ⟨rfl, rfl⟩
  · exact ⟨rfl, rfl⟩
  · norm_num [ticks, MainWindow.updateTrainingProgress, copyLoop, envOf, twoEpochRun,
      PlotWidget.setData, minElement, maxElement, qMax]
  · norm_num [ticks, MainWindow.updateTrainingProgress, copyLoop, envOf, twoEpochRun,
      PlotWidget.setData, minElement, maxElement, qMax]
  · norm_num [ticks, MainWindow.updateTrainingProgress, copyLoop, envOf, twoEpochRun,
      PlotWidget.setData, minElement, maxElement, qMax]

/-- C8, amended: a tick with cursor `c < N` hands the first `c + 1` samples of
each series to `setData` of its plot, so the `(minY, maxY)` of the accuracy
plot and of the loss plot are recomputed on that tick, by the auto-ranging rule
of `setData`, from that prefix alone (whatever the range was before); only the
tick with cursor `c ≥ N`, which stops the timer, leaves both plots and their
ranges unchanged. -/
theorem tick_recomputes_range (s : MainWindow) :
    ((s.accuracies.length = s.losses.length ∧ 0 ≤ s.currentEpoch ∧
        s.currentEpoch < (s.accuracies.length : Int)) →
      s.updateTrainingProgress.accuracyPlot
        = s.accuracyPlot.setData (s.accuracies.take (s.currentEpoch.toNat + 1)) ∧
      s.updateTrainingProgress.lossPlot
        = s.lossPlot.setData (s.losses.take (s.currentEpoch.toNat + 1)) ∧
      (∀ q : PlotWidget,
        s.updateTrainingProgress.accuracyPlot.m_minY
          = (q.setData (s.accuracies.take (s.currentEpoch.toNat + 1))).m_minY ∧
        s.updateTrainingProgress.accuracyPlot.m_maxY
          = (q.setData (s.accuracies.take (s.currentEpoch.toNat + 1))).m_maxY ∧
        s.updateTrainingProgress.lossPlot.m_minY
          = (q.setData (s.losses.take (s.currentEpoch.toNat + 1))).m_minY ∧
        s.updateTrainingProgress.lossPlot.m_maxY
          = (q.setData (s.losses.take (s.currentEpoch.toNat + 1))).m_maxY)) ∧
    ((s.accuracies.length : Int) ≤ s.currentEpoch →
      s.updateTrainingProgress.accuracyPlot = s.accuracyPlot ∧
      s.updateTrainingProgress.lossPlot = s.lossPlot) := by
  constructor
  · rintro ⟨hlen, h0, hlt⟩
    rw [updateTrainingProgress_running s hlt]
    have hne : ∀ l : List ℚ, l.length = s.accuracies.length →
        l.take (s.currentEpoch.toNat + 1) ≠ [] := by
      intro l hl hnil
      have := congrArg List.length hnil
      rw [List.length_take, hl] at this
      simp only [List.length_nil] at this
      omega
    refine ⟨rfl, rfl, fun q => ?_⟩
    have ha := setData_range_eq s.accuracyPlot q _ (hne s.accuracies rfl)
    have hl := setData_range_eq s.lossPlot q _ (hne s.losses hlen.symm)
    exact ⟨ha.1, ha.2, hl.1, hl.2⟩
  · intro hge
    rw [updateTrainingProgress_finished s hge]
    exact ⟨rfl, rfl⟩

/-- Witness for `tick_recomputes_range`: the running state right after a
successful start with the two-epoch series. -/
theorem tick_recomputes_range_witness :
    (((MainWindow.new.selectDataset "fruits.csv").startTraining
        (envOf twoEpochRun)).1.accuracies.length
      = ((MainWindow.new.selectDataset "fruits.csv").startTraining
        (envOf twoEpochRun)).1.losses.length ∧
      0 ≤ ((MainWindow.new.selectDataset "fruits.csv").startTraining
        (envOf twoEpochRun)).1.currentEpoch ∧
      ((MainWindow.new.selectDataset "fruits.csv").startTraining
        (envOf twoEpochRun)).1.currentEpoch
        < (((MainWindow.new.selectDataset "fruits.csv").startTraining
        (envOf twoEpochRun)).1.accuracies.length : Int)) ∧
    ((MainWindow.new.selectDataset "fruits.csv").startTraining
        (envOf twoEpochRun)).1.updateTrainingProgress.accuracyPlot
      = ((MainWindow.new.selectDataset "fruits.csv").startTraining
          (envOf twoEpochRun)).1.accuracyPlot.setData
        (((MainWindow.new.selectDataset "fruits.csv").startTraining
          (envOf twoEpochRun)).1.accuracies.take
          (((MainWindow.new.selectDataset "fruits.csv").startTraining
            (envOf twoEpochRun)).1.currentEpoch.toNat + 1)) := by
  have hp : (MainWindow.new.selectDataset "fruits.csv").datasetPath.isEmpty = false := by
    decide
  have hs := startTraining_success (MainWindow.new.selectDataset "fruits.csv")
    (envOf twoEpochRun) hp rfl rfl
  have hpre : ((MainWindow.new.selectDataset "fruits.csv").startTraining
        (envOf twoEpochRun)).1.accuracies.length
      = ((MainWindow.new.selectDataset "fruits.csv").startTraining
        (envOf twoEpochRun)).1.losses.length ∧
      0 ≤ ((MainWindow.new.selectDataset "fruits.csv").startTraining
        (envOf twoEpochRun)).1.currentEpoch ∧
      ((MainWindow.new.selectDataset "fruits.csv").startTraining
        (envOf twoEpochRun)).1.currentEpoch
        < (((MainWindow.new.selectDataset "fruits.csv").startTraining
        (envOf twoEpochRun)).1.accuracies.length : Int) := by
    rw [hs]
    simp [copyLoop, envOf, twoEpochRun]
  exact ⟨hpre, ((tick_recomputes_range _).1 hpre).1⟩

theorem getD_of_take_eq (l l' : List ℚ) (c : Nat)
    (h : l'.take (c + 1) = l.take (c + 1)) : l'.getD c 0 = l.getD c 0 := by
  have h1 : (l'.take (c + 1))[c]? = (l.take (c + 1))[c]? := by rw [h]
  rw [List.getElem?_take_of_lt (Nat.lt_succ_self c),
    List.getElem?_take_of_lt (Nat.lt_succ_self c)] at h1
  rw [List.getD_eq_getElem?_getD, List.getD_eq_getElem?_getD, h1]

/-- C9: in a state whose two series have the same length `N` and whose cursor
is `c < N`, one tick hands exactly the first `c + 1` elements of the accuracy
series to the accuracy plot and the first `c + 1` elements of the loss series
to the loss plot, sets the accuracy readout from `accuracies[c]`, leaves the
cursor at `c + 1` and the two series unchanged; and it reads no element at an
index greater than `c`: whatever the series hold beyond index `c`, everything
the tick writes is the same. -/
theorem tick_shows_leading_samples (s : MainWindow) (c : Nat)
    (hlen : s.accuracies.length = s.losses.length)
    (hc : s.currentEpoch = (c : Int)) (hlt : c < s.accuracies.length) :
    (s.updateTrainingProgress.accuracyPlot.m_data = s.accuracies.take (c + 1) ∧
      (s.accuracies.take (c + 1)).length = c + 1) ∧
    (s.updateTrainingProgress.lossPlot.m_data = s.losses.take (c + 1) ∧
      (s.losses.take (c + 1)).length = c + 1) ∧
    (∃ a : ℚ, s.accuracies[c]? = some a ∧
      s.updateTrainingProgress.accuracyLabel = AccuracyText.current (a * 100)) ∧
    s.updateTrainingProgress.currentEpoch = (c : Int) + 1 ∧
    s.updateTrainingProgress.accuracies = s.accuracies ∧
    s.updateTrainingProgress.losses = s.losses ∧
    (∀ accs ls : List ℚ,
      accs.take (c + 1) = s.accuracies.take (c + 1) →
      ls.take (c + 1) = s.losses.take (c + 1) →
      ({ s with accuracies := accs, losses := ls }).updateTrainingProgress
        = { s.updateTrainingProgress with accuracies := accs, losses := ls }) := by
  have hlt' : s.currentEpoch < (s.accuracies.length : Int) := by
    rw [hc]; exact_mod_cast hlt
  have hnat : s.currentEpoch.toNat = c := by rw [hc]; rfl
  rw [updateTrainingProgress_running s hlt', hnat]
  refine ⟨⟨setData_m_data _ _, ?_⟩, ⟨setData_m_data _ _, ?_⟩, ?_, ?_, rfl, rfl, ?_⟩
  · rw [List.length_take]; omega
  · rw [List.length_take]; omega
  · refine ⟨s.accuracies[c], List.getElem?_eq_getElem hlt, ?_⟩
    simp only [List.getD_eq_getElem?_getD, List.getElem?_eq_getElem hlt, Option.getD_some]
  · simp only [hc]
  · intro accs ls ha hl
    have hlen' : c < accs.length := by
      have := congrArg List.length ha
      rw [List.length_take, List.length_take] at this
      omega
    have hlt2 : ({ s with accuracies := accs, losses := ls } : MainWindow).currentEpoch
        < ((({ s with accuracies := accs, losses := ls } : MainWindow).accuracies.length
            : Nat) : Int) := by
      simp only [hc]
      exact_mod_cast hlen'
    rw [updateTrainingProgress_running _ hlt2]
    simp only [hnat, ha, hl, getD_of_take_eq s.accuracies accs c ha]

/-- Witness for `tick_shows_leading_samples`: the state after a successful start with
the two-epoch series and one tick, where the cursor is `1`. -/
theorem tick_shows_leading_samples_witness :
    (ticks 1 ((MainWindow.new.selectDataset "fruits.csv").startTraining
        (envOf twoEpochRun)).1).accuracies.length
      = (ticks 1 ((MainWindow.new.selectDataset "fruits.csv").startTraining
        (envOf twoEpochRun)).1).losses.length ∧
    (ticks 1 ((MainWindow.new.selectDataset "fruits.csv").startTraining
        (envOf twoEpochRun)).1).currentEpoch = ((1 : Nat) : Int) ∧
    1 < (ticks 1 ((MainWindow.new.selectDataset "fruits.csv").startTraining
        (envOf twoEpochRun)).1).accuracies.length ∧
    (ticks 1 ((MainWindow.new.selectDataset "fruits.csv").startTraining
        (envOf twoEpochRun)).1).updateTrainingProgress.currentEpoch = ((1 : Nat) : Int) + 1 := by
  have hp : (MainWindow.new.selectDataset "fruits.csv").datasetPath.isEmpty = false := by
    decide
  have hs := startTraining_success (MainWindow.new.selectDataset "fruits.csv")
    (envOf twoEpochRun) hp rfl rfl
  have h1 : (ticks 1 ((MainWindow.new.selectDataset "fruits.csv").startTraining
        (envOf twoEpochRun)).1).accuracies.length
      = (ticks 1 ((MainWindow.new.selectDataset "fruits.csv").startTraining
        (envOf twoEpochRun)).1).losses.length := by
    rw [hs]
    simp [ticks, MainWindow.updateTrainingProgress, copyLoop, envOf, twoEpochRun]
  have h2 : (ticks 1 ((MainWindow.new.selectDataset "fruits.csv").startTraining
        (envOf twoEpochRun)).1).currentEpoch = ((1 : Nat) : Int) := by
    rw [hs]
    simp [ticks, MainWindow.updateTrainingProgress, copyLoop, envOf, twoEpochRun]
  have h3 : 1 < (ticks 1 ((MainWindow.new.selectDataset "fruits.csv").startTraining
        (envOf twoEpochRun)).1).accuracies.length := by
    rw [hs]
    simp [ticks, MainWindow.updateTrainingProgress, copyLoop, envOf, twoEpochRun]
  exact ⟨h1, h2, h3, (tick_shows_leading_samples _ 1 h1 h2 h3).2.2.2.1⟩

/-! ## A view of a single sample -/

/-- C10 (what the code does): for a view of a single sample the curve loop has
no special case; the abscissa is computed as `0 * width() / double(0)`, a
division by zero with no finite result, so the only point of the path has no
coordinates, instead of being placed at `x = 0`. -/
theorem paintCurve_single_sample (v minY maxY : ℚ) (title : String) (W H : Nat) :
    curveX 0 W 1 = none ∧
    paintCurve { m_data := [v], m_minY := minY, m_maxY := maxY, m_title := title } W H
      = [none] := by
  have hx : curveX 0 W 1 = none := by
    simp [curveX, fdiv]
  refine ⟨hx, ?_⟩
  have hr : List.range 1 = [0] := rfl
  simp only [paintCurve, List.length_singleton, hr, List.map_cons, List.map_nil,
    curvePoint, hx]


/-! ## The span of the range computed by `setData` -/

/-- C11, as stated, fails: the non-empty sequence `[-11, -1]` has range `10`,
so `setData` sets `minY = max(0, -12) = 0` and `maxY = -1 + 1 = 0`; the span is
`0`, not at least `0.1`, and the divisor `maxY - minY` of the vertical mapping
is zero (the clamp of `paintEvent` then puts the sample `-11` at the ordinate
`100` of a canvas of height `100`).  On `[-10, -5]` the upper bound `-4.5` is
even below the lower bound `0`. -/
theorem setData_min_span_fails :
    ((PlotWidget.new.setData [-11, -1]).m_minY = 0 ∧
      (PlotWidget.new.setData [-11, -1]).m_maxY = 0) ∧
    ¬ (1 / 10 ≤ (PlotWidget.new.setData [-11, -1]).m_maxY
        - (PlotWidget.new.setData [-11, -1]).m_minY) ∧
    (PlotWidget.new.setData [-11, -1]).m_maxY - (PlotWidget.new.setData [-11, -1]).m_minY = 0 ∧
    curveY (-11) (PlotWidget.new.setData [-11, -1]).m_minY
        (PlotWidget.new.setData [-11, -1]).m_maxY 100 = ExtDouble.finite 100 ∧
    ((PlotWidget.new.setData [-10, -5]).m_minY = 0 ∧
      (PlotWidget.new.setData [-10, -5]).m_maxY = -9 / 2) ∧
    ¬ ((PlotWidget.new.setData [-10, -5]).m_minY < (PlotWidget.new.setData [-10, -5]).m_maxY) := by
  have h1 : (PlotWidget.new.setData [-11, -1]).m_minY = 0 := by
    norm_num [PlotWidget.setData, PlotWidget.new, minElement, maxElement, qMax]
  have h2 : (PlotWidget.new.setData [-11, -1]).m_maxY = 0 := by
    norm_num [PlotWidget.setData, PlotWidget.new, minElement, maxElement, qMax]
  have h3 : (PlotWidget.new.setData [-10, -5]).m_minY = 0 := by
    norm_num [PlotWidget.setData, PlotWidget.new, minElement, maxElement, qMax]
  have h4 : (PlotWidget.new.setData [-10, -5]).m_maxY = -9 / 2 := by
    norm_num [PlotWidget.setData, PlotWidget.new, minElement, maxElement, qMax]
  refine ⟨⟨h1, h2⟩, ?_, ?_, ?_, ⟨h3, h4⟩, ?_⟩
  · rw [h1, h2]; norm_num
  · rw [h1, h2]; norm_num
  · rw [h1, h2, curveY_degenerate]
    norm_num
  · rw [h3, h4]; norm_num

theorem setDataWith_id (p : PlotWidget) (data : List ℚ) :
    p.setDataWith id data = p.setData data := by
  cases data with
  | nil => rfl
  | cons x xs => simp only [PlotWidget.setDataWith, PlotWidget.setData, id]

/-- C11, amended: for every non-empty sample sequence the range computed by
`setData` has a lower bound `minY ≥ 0`, in exact arithmetic and under any
rounding of the `double` operations.  No minimum span is promised; whatever
the two bounds are, also when `maxY - minY` is zero, the ordinate that the
curve loop of `paintEvent` computes for a sample is a finite number in
`[0, H]`, since the clamp absorbs an infinite or NaN quotient. -/
theorem setData_lower_bound (p : PlotWidget) (data : List ℚ) (h : data ≠ []) :
    0 ≤ (p.setData data).m_minY ∧
    (∀ fl : ℚ → ℚ, 0 ≤ (p.setDataWith fl data).m_minY) ∧
    ∀ (v : ℚ) (H : Nat), ∃ y : ℚ,
      curveY v (p.setData data).m_minY (p.setData data).m_maxY H = ExtDouble.finite y ∧
      0 ≤ y ∧ y ≤ (H : ℚ) := by
  have hfl : ∀ fl : ℚ → ℚ, 0 ≤ (p.setDataWith fl data).m_minY := by
    intro fl
    cases data with
    | nil => exact absurd rfl h
    | cons x xs =>
      simp only [PlotWidget.setDataWith]
      split_ifs <;> simp only [qMax_eq_max] <;> exact le_max_left _ _
  refine ⟨?_, hfl, fun v H => curveY_clamped v _ _ H⟩
  rw [← setDataWith_id]
  exact hfl id

/-- Witness for `setData_lower_bound`: the sequence `[-11, -1]`, whose range
is `(0, 0)`. -/
theorem setData_lower_bound_witness :
    ([-11, -1] : List ℚ) ≠ [] ∧ 0 ≤ (PlotWidget.new.setData [-11, -1]).m_minY :=
  ⟨by simp, (setData_lower_bound PlotWidget.new [-11, -1] (by simp)).1⟩

end FruitClassifier
